import Mathlib

/-!
Verification development for the psr-sb-gui repository.

The definitions below are a shallow embedding of the Python sources:
`models/observation.py` (frequency-band catalog, VEGAS scale tables and the
backend-parameter resolver), `pages/flux_cal_page.py` (flux-calibrator
catalog, flux models, angular separation and nearest-calibrator search),
`pages/source_page.py` (catalog import parser) and `pages/preview_page.py`
(scheduling-block compiler).

Machine reals from the Python code are modelled as `ℚ` where the code only
performs field arithmetic, and as `ℝ` where it uses transcendental
functions (`cos`, `sqrt`, `**` with real exponents).  Python exceptions
(`KeyError`, `IndexError`, `ValueError`, `min`/`max` of an empty sequence)
are modelled with `Option`/`Except`.
-/

namespace PsrSbGui

/-- Coordinate systems, from `CoordSystem` in `models/observation.py`. -/
inductive CoordSystem where
  | J2000
  | B1950
  | GALACTIC
deriving DecidableEq, Repr

/-- The `value` string of each `CoordSystem` enum member. -/
def CoordSystem.value : CoordSystem → String
  | .J2000 => "J2000"
  | .B1950 => "B1950"
  | .GALACTIC => "Galactic"

/-- Observing modes, from `ObsMode` in `models/observation.py`. -/
inductive ObsMode where
  | COHERENT_FOLD
  | COHERENT_SEARCH
  | FOLD
  | SEARCH
deriving DecidableEq, Repr

/-- The `value` string of each `ObsMode` enum member. -/
def ObsMode.value : ObsMode → String
  | .COHERENT_FOLD => "coherent_fold"
  | .COHERENT_SEARCH => "coherent_search"
  | .FOLD => "fold"
  | .SEARCH => "search"

/-- `ObsMode.is_coherent` from `models/observation.py`. -/
def ObsMode.is_coherent : ObsMode → Bool
  | .COHERENT_FOLD => true
  | .COHERENT_SEARCH => true
  | _ => false

/-- `ObsMode.is_fold` from `models/observation.py`. -/
def ObsMode.is_fold : ObsMode → Bool
  | .COHERENT_FOLD => true
  | .FOLD => true
  | _ => false

/-- `ObsMode.display_label` from `models/observation.py`. -/
def ObsMode.display_label : ObsMode → String
  | .COHERENT_FOLD => "Coherent Fold"
  | .COHERENT_SEARCH => "Coherent Search"
  | .FOLD => "Incoherent Fold"
  | .SEARCH => "Incoherent Search"

/-- `FreqBand` dataclass from `models/observation.py`.  The numeric fields
are Python floats used only with field arithmetic, modelled as `ℚ`. -/
structure FreqBand where
  label : String
  receiver : String
  bandwidth : ℚ
  windows : List ℚ := []
  center_freq : Option ℚ := none
deriving DecidableEq, Repr

/-- The `FREQ_BANDS` table from `models/observation.py`, as a lookup
function (Python dict indexing; a missing key raises `KeyError`,
modelled by `none`). -/
def FREQ_BANDS : String → Option FreqBand
  | "350 MHz" => some { label := "350 MHz", receiver := "Rcvr_342", bandwidth := 100, center_freq := some 350 }
  | "820 MHz" => some { label := "820 MHz", receiver := "Rcvr_800", bandwidth := 200, center_freq := some 820 }
  | "L-band" => some { label := "L-band", receiver := "Rcvr1_2", bandwidth := 800, center_freq := some 1500 }
  | "S-band" => some { label := "S-band", receiver := "Rcvr2_3", bandwidth := 1500, center_freq := some 2165 }
  | "UWBR" => some { label := "UWBR", receiver := "Rcvr_2500", bandwidth := 1500, windows := [1225, 2350, 3475] }
  | "C-band" => some { label := "C-band", receiver := "Rcvr4_6", bandwidth := 1500, windows := [4312.5, 5437.5, 6562.5, 7687.5] }
  | "X-band" => some { label := "X-band", receiver := "Rcvr8_10", bandwidth := 1500, windows := [8250, 9375, 10500, 11625] }
  | _ => none

/-- The `COHERENT_SCALE` table from `models/observation.py`:
`(bandwidth_mhz, numchan) -> scale`, in source order. -/
def COHERENT_SCALE : List ((ℕ × ℕ) × ℕ) :=
  [((100, 64), 820), ((100, 128), 595), ((100, 256), 1650), ((100, 512), 2355),
   ((200, 64), 605), ((200, 128), 865), ((200, 256), 620), ((200, 512), 1720),
   ((200, 1024), 2430),
   ((800, 32), 375), ((800, 64), 420), ((800, 128), 800), ((800, 256), 940),
   ((800, 512), 1585), ((800, 1024), 880), ((800, 2048), 3155), ((800, 4096), 4550),
   ((1500, 32), 365), ((1500, 64), 530), ((1500, 128), 730), ((1500, 256), 1070),
   ((1500, 512), 1450), ((1500, 1024), 1085), ((1500, 2048), 300), ((1500, 4096), 3750)]

/-- The `INCOHERENT_SCALE` table from `models/observation.py`. -/
def INCOHERENT_SCALE : List ((ℕ × ℕ) × ℕ) :=
  [((100, 512), 1875), ((100, 1024), 4010), ((100, 2048), 550), ((100, 4096), 990),
   ((100, 8192), 580),
   ((200, 1024), 1920), ((200, 2048), 1030), ((200, 4096), 540), ((200, 8192), 1045),
   ((800, 32), 14830), ((800, 64), 7240), ((800, 128), 14690), ((800, 256), 7340),
   ((800, 512), 15320), ((800, 1024), 7495), ((800, 2048), 14300), ((800, 4096), 7545),
   ((800, 8192), 14725),
   ((1500, 32), 14675), ((1500, 64), 6835), ((1500, 128), 13485), ((1500, 256), 6750),
   ((1500, 512), 13345), ((1500, 1024), 6655), ((1500, 2048), 13035), ((1500, 4096), 6595)]

/-- Insertion sort on naturals, modelling Python's `sorted`. -/
def insertSorted (x : ℕ) : List ℕ → List ℕ
  | [] => [x]
  | y :: ys => if x ≤ y then x :: y :: ys else y :: insertSorted x ys

/-- Sort a list of naturals ascending (Python `sorted`). -/
def sortNat (l : List ℕ) : List ℕ := l.foldr insertSorted []

/-- `get_valid_numchan_values` from `models/observation.py`. -/
def get_valid_numchan_values (bandwidth_mhz : ℕ) (is_coherent : Bool) : List ℕ :=
  let table := if is_coherent then COHERENT_SCALE else INCOHERENT_SCALE
  sortNat ((table.filter (fun e => e.1.1 = bandwidth_mhz)).map (fun e => e.1.2))

/-- `get_recommended_scale` from `models/observation.py`.  Python raises
`KeyError` on a missing key, modelled by `none`. -/
def get_recommended_scale (bandwidth_mhz numchan : ℕ) (is_coherent : Bool) : Option ℕ :=
  let table := if is_coherent then COHERENT_SCALE else INCOHERENT_SCALE
  (table.find? (fun e => e.1 = (bandwidth_mhz, numchan))).map (fun e => e.2)

/-- `compute_tint` from `models/observation.py`:
`tint = acclen * numchan / (bandwidth_mhz * 1e6)`. -/
def compute_tint (acclen numchan : ℕ) (bandwidth_mhz : ℚ) : ℚ :=
  (acclen : ℚ) * (numchan : ℚ) / (bandwidth_mhz * 1000000)

/-- `get_valid_acclen_values` from `models/observation.py`. -/
def get_valid_acclen_values (is_coherent : Bool) : List ℕ :=
  if is_coherent then [4, 8, 16] else (List.range 11).map (fun i => 2 ^ i)

/-- Fuel-driven base-2 logarithm used to keep `nearest_power_of_2`
kernel-reducible; `floorLog2` below ties off the fuel. -/
def floorLog2Aux : ℕ → ℕ → ℕ
  | 0, _ => 0
  | fuel + 1, n => if 2 ≤ n then floorLog2Aux fuel (n / 2) + 1 else 0

/-- Base-2 integer logarithm: for `1 ≤ n` the largest `k` with `2^k ≤ n`
(equals `Nat.log 2 n`, proved below). -/
def floorLog2 (n : ℕ) : ℕ := floorLog2Aux n n

/-- `_nearest_power_of_2` from `models/observation.py`.  For `x > 1` the
Python code takes `low = 2**floor(log2 x)` and `high = 2**ceil(log2 x)`;
in exact arithmetic `floor(log2 x) = floorLog2 ⌊x⌋₊` and the ceiling is
the same exponent when `x` is itself a power of two, one more otherwise. -/
def nearest_power_of_2 (x : ℚ) : ℕ :=
  if x ≤ 1 then 1
  else
    let n := floorLog2 ⌊x⌋₊
    let lo : ℕ := 2 ^ n
    let hi : ℕ := if ((2 ^ n : ℕ) : ℚ) = x then 2 ^ n else 2 ^ (n + 1)
    if |x - (lo : ℚ)| ≤ |x - (hi : ℚ)| then lo else hi

/-- `VegasParams` dataclass from `models/observation.py`. -/
structure VegasParams where
  numchan : ℕ := 512
  outbits : ℕ := 8
  scale : ℕ := 1585
  polnmode : String := "FULL_STOKES"
  tint : ℚ := 10.24e-6
  fold_bins : ℕ := 2048
  fold_dumptime : ℚ := 10.0
  center_freqs : List ℚ := []
  band_label : String := ""
  obs_mode_value : String := ""
deriving DecidableEq, Repr

/-- Python `min(valid, key=f)`: first element minimising `f` (Python's
`min` keeps the earliest among ties).  Empty input raises, hence `Option`. -/
def pyMinKey (f : ℕ → ℤ) : List ℕ → Option ℕ
  | [] => none
  | v :: vs => some (vs.foldl (fun best w => if f w < f best then w else best) v)

/-- Python `max(valid)` (empty input raises, hence `Option`). -/
def pyMax : List ℕ → Option ℕ
  | [] => none
  | v :: vs => some (vs.foldl (fun best w => if best < w then w else best) v)

/-- `get_default_vegas_params` from `models/observation.py`.  `none`
models the exceptions Python could raise (unknown band label, missing
scale-table key, `min`/`max` of an empty valid list).  All bands in
`FREQ_BANDS` satisfy the invariant that exactly one of `center_freq` /
`windows` is populated, so `Option.toList` matches `[band.center_freq]`. -/
def get_default_vegas_params (band_label : String) (obs_mode : ObsMode) :
    Option VegasParams := do
  let band ← FREQ_BANDS band_label
  let bw : ℕ := ⌊band.bandwidth⌋₊
  let is_coherent := obs_mode.is_coherent
  let numchan ←
    if is_coherent then
      let nc0 := nearest_power_of_2 ((bw : ℚ) / 1.5)
      let valid := get_valid_numchan_values bw true
      if nc0 ∈ valid then some nc0
      else pyMinKey (fun v => |(v : ℤ) - (nc0 : ℤ)|) valid
    else
      let valid := get_valid_numchan_values bw false
      if 4096 ∈ valid then some 4096 else pyMax valid
  let acclen : ℕ :=
    if is_coherent then 16
    else
      let target : ℚ := 80e-6 * (bw : ℚ) * 1e6 / (numchan : ℚ)
      max 1 (min (nearest_power_of_2 target) 1024)
  let tint := compute_tint acclen numchan (bw : ℚ)
  let scale ← get_recommended_scale bw numchan is_coherent
  let polnmode := if obs_mode = ObsMode.SEARCH then "TOTAL_INTENSITY" else "FULL_STOKES"
  let fold_bins := if obs_mode.is_fold then (if is_coherent then 2048 else 256) else 2048
  let fold_dumptime : ℚ := 10
  let center_freqs := if band.windows ≠ [] then band.windows else band.center_freq.toList
  pure { numchan := numchan, outbits := 8, scale := scale, polnmode := polnmode,
         tint := tint, fold_bins := fold_bins, fold_dumptime := fold_dumptime,
         center_freqs := center_freqs, band_label := band_label,
         obs_mode_value := obs_mode.value }

/-- `Source` dataclass from `models/observation.py`. -/
structure Source where
  name : String := ""
  coord_system : CoordSystem := CoordSystem.J2000
  coord1 : String := ""
  coord2 : String := ""
  scan_length : Option ℚ := none
  freq_range : Option String := none
  obs_mode : Option ObsMode := none
  parfile : String := ""
  dm : Option ℚ := none
  include_pol_cal : Bool := false
  vegas_params : Option VegasParams := none
deriving DecidableEq, Repr

/-- `ObservationModel` dataclass from `models/observation.py`.  The
`generated_sbs` dict (insertion-ordered, unique labels) is modelled as an
association list. -/
structure ObservationModel where
  sources : List Source := []
  global_freq_range : String := "L-band"
  global_obs_mode : ObsMode := ObsMode.COHERENT_FOLD
  per_source_config : Bool := false
  include_pol_cal : Bool := false
  include_flux_cal : Bool := false
  flux_cal_source : String := ""
  flux_cal_scan_duration : ℚ := 95
  generated_sbs : List (String × String) := []
  output_path : String := ""
deriving DecidableEq, Repr

/-- Association-list lookup for the `generated_sbs` mapping (labels are
unique, so first-match lookup agrees with Python dict indexing). -/
def lookupSb (sbs : List (String × String)) (label : String) : Option String :=
  (sbs.find? (fun e => e.1 = label)).map (fun e => e.2)

/-- Python `str.lower()` (ASCII inputs here). -/
def pyLower (s : String) : String := String.mk (s.toList.map Char.toLower)

/-- Python `str.upper()` (ASCII inputs here). -/
def pyUpper (s : String) : String := String.mk (s.toList.map Char.toUpper)

/-- Python `str.strip()`: drop whitespace from both ends. -/
def pyStrip (s : String) : String :=
  String.mk (((s.toList.dropWhile Char.isWhitespace).reverse.dropWhile Char.isWhitespace).reverse)

/-- Python `s.startswith(pre)`. -/
def strStartsWith (s pre : String) : Bool := pre.toList.isPrefixOf s.toList

/-- Python `c in s` for a single character. -/
def strContainsChar (s : String) (c : Char) : Bool := s.toList.contains c

/-- The part of `s` before the first character satisfying `p`. -/
def strTakeWhile (p : Char → Bool) (s : String) : String :=
  String.mk (s.toList.takeWhile p)

/-- The part of `s` from the first character satisfying `p` on. -/
def strDropWhile (p : Char → Bool) (s : String) : String :=
  String.mk (s.toList.dropWhile p)

/-- Drop the first `n` characters of `s`. -/
def strDrop (s : String) (n : ℕ) : String := String.mk (s.toList.drop n)

/-- Split a character list at separators chosen by `p`, keeping empty
fields (the semantics of Python `str.split(sep)`). -/
def splitByAux (p : Char → Bool) : List Char → List Char → List String
  | [], acc => [String.mk acc.reverse]
  | c :: cs, acc =>
    if p c then String.mk acc.reverse :: splitByAux p cs []
    else splitByAux p cs (c :: acc)

/-- See `splitByAux`. -/
def splitBy (p : Char → Bool) (s : String) : List String := splitByAux p s.toList []

/-- `_safe_name` from `pages/preview_page.py`: replace every character
outside `[A-Za-z0-9]` with an underscore. -/
def safe_name (s : String) : String :=
  String.mk (s.toList.map (fun c => if c.isAlphanum then c else '_'))

/-- Python `int()` applied to a float: truncation toward zero. -/
def pyInt (q : ℚ) : ℤ := if 0 ≤ q then ⌊q⌋ else ⌈q⌉

/-- Rendering of a rational numeric field in generated text.  This stands
in for Python's `str()` on the (float or int) value: integers render
identically; non-integral values render as `num/den` rather than Python's
decimal float repr.  No claim below depends on the rendering of a
non-integral value. -/
def fmtQ (q : ℚ) : String :=
  if q.den = 1 then toString q.num else toString q.num ++ "/" ++ toString q.den

/-- Python `f"{name:32s}"`: left-justify, pad with spaces to width 32. -/
def padTo32 (s : String) : String :=
  if s.length < 32 then s ++ String.mk (List.replicate (32 - s.length) ' ') else s

/-- `PreviewPage._get_source_band`: per-source band override if enabled
and truthy (a non-`None`, non-empty string), else the global band. -/
def getSourceBand (o : ObservationModel) (src : Source) : String :=
  if o.per_source_config then
    match src.freq_range with
    | some fr => if fr ≠ "" then fr else o.global_freq_range
    | none => o.global_freq_range
  else o.global_freq_range

/-- `PreviewPage._get_source_mode`: per-source mode override if enabled
and set, else the global mode (`ObsMode` members are always truthy). -/
def getSourceMode (o : ObservationModel) (src : Source) : ObsMode :=
  if o.per_source_config then
    match src.obs_mode with
    | some m => m
    | none => o.global_obs_mode
  else o.global_obs_mode

/-- `PreviewPage._get_source_pol_cal`. -/
def getSourcePolCal (o : ObservationModel) (src : Source) : Bool :=
  if o.per_source_config then src.include_pol_cal else o.include_pol_cal

/-- One step of the receiver grouping in `_generate_all_sbs`
(`receiver_groups.setdefault(rcvr, []).append(src)` plus the first-seen
`receiver_band_label` record): groups are `(receiver, band_label,
sources)` in first-seen receiver order. -/
def addSourceToGroups (rcvr band_label : String) (src : Source) :
    List (String × String × List Source) → List (String × String × List Source)
  | [] => [(rcvr, band_label, [src])]
  | (r, bl, srcs) :: rest =>
    if r = rcvr then (r, bl, srcs ++ [src]) :: rest
    else (r, bl, srcs) :: addSourceToGroups rcvr band_label src rest

/-- The receiver-grouping loop of `_generate_all_sbs`.  `none` models the
`KeyError` Python raises on an unknown band label. -/
def receiverGroups (o : ObservationModel) :
    Option (List (String × String × List Source)) :=
  o.sources.foldlM
    (fun groups src => do
      let band_label := getSourceBand o src
      let band ← FREQ_BANDS band_label
      pure (addSourceToGroups band.receiver band_label src groups))
    []

/-- One step of the coordinate-system grouping in
`_generate_catalog_entries` (`by_coord.setdefault(...)`). -/
def addSourceByCoord (src : Source) :
    List (CoordSystem × List Source) → List (CoordSystem × List Source)
  | [] => [(src.coord_system, [src])]
  | (cs, srcs) :: rest =>
    if cs = src.coord_system then (cs, srcs ++ [src]) :: rest
    else (cs, srcs) :: addSourceByCoord src rest

/-- `PreviewPage._generate_catalog_entries`. -/
def generateCatalogEntries (sources : List Source) : List String :=
  let by_coord := sources.foldl (fun g src => addSourceByCoord src g) []
  by_coord.flatMap (fun e =>
    let headers :=
      match e.1 with
      | CoordSystem.J2000 =>
        ["format=spherical", "coordmode=J2000", "HEAD = NAME    RA              DEC"]
      | CoordSystem.B1950 =>
        ["format=spherical", "coordmode=B1950", "HEAD = NAME    RA              DEC"]
      | CoordSystem.GALACTIC =>
        ["format=spherical", "coordmode=Galactic", "HEAD = NAME    GLON            GLAT"]
    let rows := e.2.map (fun src => padTo32 src.name ++ " " ++ src.coord1 ++ "  " ++ src.coord2)
    ["Catalog(\"\"\""] ++ headers ++ rows ++ ["\"\"\")", ""])

/-- `PreviewPage._generate_config_block`.  `none` models the `KeyError`
on an unknown band label; a source without `vegas_params` yields `[]`.
`FREQ_BANDS` bands have exactly one of `center_freq`/`windows` populated,
so `Option.toList` matches the Python `[band.center_freq]`. -/
def generateConfigBlock (config_name : String) (src : Source)
    (band_label : String) (obs_mode : ObsMode)
    (is_cal : Bool) (is_flux_cal : Bool) : Option (List String) := do
  let band ← FREQ_BANDS band_label
  match src.vegas_params with
  | none => pure []
  | some p =>
    let center_freqs :=
      if p.center_freqs ≠ [] then p.center_freqs
      else if band.windows ≠ [] then band.windows
      else band.center_freq.toList
    let rest_freq_str := String.intercalate ", " (center_freqs.map fmtQ)
    let doppler_freq ← center_freqs.head?
    let vegas_obsmode :=
      if is_cal ∨ is_flux_cal then
        if obs_mode.is_coherent then "coherent_cal" else "cal"
      else obs_mode.value
    let swmode := if is_cal ∨ is_flux_cal then "tp" else "tp_nocal"
    let noisecal := if is_cal ∨ is_flux_cal then "lo" else "off"
    let ifbw : ℕ := if band_label = "350 MHz" then 80 else 0
    let base :=
      [config_name ++ " = \"\"\"",
       "    obstype = 'Pulsar'",
       "    backend = 'VEGAS'",
       "    receiver = '" ++ band.receiver ++ "'",
       "    restfreq = " ++ rest_freq_str,
       "    bandwidth = " ++ fmtQ band.bandwidth,
       "    dopplertrackfreq = " ++ fmtQ doppler_freq,
       "    swmode = '" ++ swmode ++ "'",
       "    noisecal = '" ++ noisecal ++ "'",
       "    swper = 0.04",
       "    tint = " ++ fmtQ p.tint,
       "    ifbw = " ++ toString ifbw,
       "    vegas.obsmode = '" ++ vegas_obsmode ++ "'",
       "    vegas.numchan = " ++ toString p.numchan,
       "    vegas.outbits = " ++ toString p.outbits,
       "    vegas.scale = " ++ toString p.scale,
       "    vegas.polnmode = '" ++ pyLower p.polnmode ++ "'",
       "    vegas.subband = 1"]
    let foldLines :=
      if obs_mode.is_fold ∧ ¬ is_flux_cal then
        ["    vegas.fold_parfile = '" ++ src.parfile ++ "'",
         "    vegas.fold_bins = " ++ toString p.fold_bins,
         "    vegas.fold_dumptime = " ++ fmtQ p.fold_dumptime]
      else []
    let dmLines :=
      if obs_mode = ObsMode.COHERENT_SEARCH ∧ ¬ is_flux_cal then
        ["    vegas.dm = " ++ fmtQ (src.dm.getD 0)]
      else []
    pure (base ++ foldLines ++ dmLines ++ ["\"\"\"", ""])

/-- `PreviewPage._generate_source_config`: main config block plus a
`_cal` variant when polarization calibration is enabled for the source. -/
def generateSourceConfig (o : ObservationModel) (src : Source) :
    Option (List String) := do
  let band_label := getSourceBand o src
  let obs_mode := getSourceMode o src
  let safe := safe_name src.name
  let main ← generateConfigBlock ("config_" ++ safe) src band_label obs_mode false false
  if getSourcePolCal o src then do
    let calB ← generateConfigBlock ("config_" ++ safe ++ "_cal") src band_label obs_mode true false
    pure (main ++ calB)
  else
    pure main

/-- The scan length used in the `Track` call of `_generate_pulsar_sb`:
`int(src.scan_length) if src.scan_length else 120` (Python truthiness:
`None` and `0.0` both fall back to 120; `int()` truncates). -/
def pulsarScanLength (src : Source) : ℤ :=
  match src.scan_length with
  | some l => if l ≠ 0 then pyInt l else 120
  | none => 120

/-- The per-source chunk of the observation sequence emitted by the loop
in `_generate_pulsar_sb`. -/
def pulsarSeqLines (o : ObservationModel) (src : Source) : List String :=
  let safe := safe_name src.name
  let scan_length := pulsarScanLength src
  ["# --- " ++ src.name ++ " ---",
   "Slew('" ++ src.name ++ "')"] ++
  (if getSourcePolCal o src then
    ["Configure(config_" ++ safe ++ "_cal)",
     "Balance()",
     "Track('" ++ src.name ++ "', None, 95)",
     "Configure(config_" ++ safe ++ ")",
     "Track('" ++ src.name ++ "', None, " ++ toString scan_length ++ ")"]
  else
    ["Configure(config_" ++ safe ++ ")",
     "Balance()",
     "Track('" ++ src.name ++ "', None, " ++ toString scan_length ++ ")"]) ++
  [""]

/-- The list of lines built by `PreviewPage._generate_pulsar_sb` before
joining.  `none` models Python exceptions (unknown band label in a config
block, `sources[0]` on an empty group — `_generate_all_sbs` only builds
non-empty groups). -/
def generatePulsarSbLines (o : ObservationModel) (band_label : String)
    (sources : List Source) : Option (List String) := do
  let header :=
    ["# GBT Pulsar Observation — " ++ band_label,
     "# Generated by PSR-SB-GUI",
     ""]
  let catalog := generateCatalogEntries sources
  let configs ← sources.mapM (fun src => generateSourceConfig o src)
  let first ← sources.head?
  let seqHeader :=
    ["# === Observation Sequence ===",
     "",
     "ResetConfig()",
     "AutoPeakFocus(location='" ++ first.name ++ "')",
     ""]
  pure (header ++ catalog ++ configs.flatten ++ seqHeader ++
        sources.flatMap (fun src => pulsarSeqLines o src))

/-- `PreviewPage._generate_pulsar_sb` (`"\n".join(lines)`). -/
def generatePulsarSb (o : ObservationModel) (band_label : String)
    (sources : List Source) : Option String :=
  (generatePulsarSbLines o band_label sources).map (String.intercalate "\n")

/-- `FluxCalibrator` dataclass from `pages/flux_cal_page.py`.  Numeric
fields are modelled as `ℚ` (exact values of the decimal literals; Python
stores their nearest binary doubles). -/
structure FluxCalibrator where
  name : String
  ra_hours : ℚ
  dec_deg : ℚ
  coeffs : List ℚ := []
  ref_freq_mhz : ℚ := 0
  ref_flux_jy : ℚ := 0
  spectral_index : ℚ := 0
deriving DecidableEq, Repr

/-- Exact decimal parsing standing in for Python `float()` as used by the
coordinate parsers: optional sign, digits, optional fractional part.
Inputs in this file are always well-formed decimal literals; a malformed
input (where Python would raise `ValueError`) parses as 0. -/
def digitsVal (cs : List Char) : ℕ :=
  cs.foldl (fun acc c => acc * 10 + (c.toNat - '0'.toNat)) 0

/-- See `digitsVal`: parse a decimal string to the exact rational. -/
def pyFloat (s : String) : ℚ :=
  let (sign, rest) :=
    match s.toList with
    | '-' :: cs => ((-1 : ℚ), cs)
    | '+' :: cs => ((1 : ℚ), cs)
    | cs => ((1 : ℚ), cs)
  let intPart := rest.takeWhile Char.isDigit
  let rest2 := rest.dropWhile Char.isDigit
  let frac :=
    match rest2 with
    | '.' :: cs => cs.takeWhile Char.isDigit
    | _ => []
  sign * ((digitsVal intPart : ℚ) + (digitsVal frac : ℚ) / (10 : ℚ) ^ frac.length)

/-- `_parse_ra_to_hours` from `pages/flux_cal_page.py`. -/
def parse_ra_to_hours (ra_str : String) : ℚ :=
  let parts := splitBy (fun c => c = ':') ra_str
  let h := pyFloat (parts.getD 0 "")
  let m := if parts.length > 1 then pyFloat (parts.getD 1 "") else 0
  let s := if parts.length > 2 then pyFloat (parts.getD 2 "") else 0
  h + m / 60 + s / 3600

/-- `_parse_dec_to_deg` from `pages/flux_cal_page.py`. -/
def parse_dec_to_deg (dec_str : String) : ℚ :=
  let sign : ℚ := if strStartsWith dec_str "-" then -1 else 1
  let stripped := strDropWhile (fun c => c = '+' ∨ c = '-') dec_str
  let parts := splitBy (fun c => c = ':') stripped
  let d := pyFloat (parts.getD 0 "")
  let m := if parts.length > 1 then pyFloat (parts.getD 1 "") else 0
  let s := if parts.length > 2 then pyFloat (parts.getD 2 "") else 0
  sign * (d + m / 60 + s / 3600)

/-- Zero-pad an integer to width 2 (Python `f"{n:02d}"`, nonnegative
inputs here). -/
def pad2 (n : ℤ) : String :=
  let s := toString n
  if s.length < 2 then "0" ++ s else s

/-- Python `f"{s:04.1f}"` for a nonnegative value: one decimal place,
zero-padded to width 4.  Stands in for the float formatting (rounding
half-up on the exact rational; Python rounds the nearest double
half-to-even — the difference is immaterial for the claims below). -/
def fmt041 (q : ℚ) : String :=
  let t : ℤ := ⌊q * 10 + 1 / 2⌋
  let ip := t / 10
  let fp := (t % 10).natAbs
  pad2 ip ++ "." ++ toString fp

/-- `_format_ra` from `pages/flux_cal_page.py`. -/
def format_ra (hours : ℚ) : String :=
  let h := pyInt hours
  let remainder := (hours - (h : ℚ)) * 60
  let m := pyInt remainder
  let s := (remainder - (m : ℚ)) * 60
  pad2 h ++ ":" ++ pad2 m ++ ":" ++ fmt041 s

/-- `_format_dec` from `pages/flux_cal_page.py`. -/
def format_dec (deg : ℚ) : String :=
  let sign := if 0 ≤ deg then "+" else "-"
  let a := |deg|
  let d := pyInt a
  let remainder := (a - (d : ℚ)) * 60
  let m := pyInt remainder
  let s := (remainder - (m : ℚ)) * 60
  sign ++ pad2 d ++ ":" ++ pad2 m ++ ":" ++ fmt041 s

/-- The `CALIBRATORS` list from `pages/flux_cal_page.py` (from
`share/fluxcal.cfg`, excluding SCP), in source order.  The Format-1
power-law fields of the first entry are written as exact rationals
(`0.41` and `0.20` in the source). -/
def CALIBRATORS : List FluxCalibrator :=
  [{ name := "1413+1509", ra_hours := parse_ra_to_hours "14:13:41.660",
     dec_deg := parse_dec_to_deg "+15:09:39.524",
     ref_freq_mhz := 4850, ref_flux_jy := mkRat 41 100, spectral_index := mkRat 20 100 },
   { name := "3C48", ra_hours := parse_ra_to_hours "01:37:41.300",
     dec_deg := parse_dec_to_deg "+33:09:35.13",
     coeffs := [1.3253, -0.7553, -0.1914, 0.0498] },
   { name := "3C123", ra_hours := parse_ra_to_hours "04:37:04.375",
     dec_deg := parse_dec_to_deg "+29:40:13.82",
     coeffs := [1.8017, -0.7884, -0.1035, -0.0248, 0.0090] },
   { name := "J0444-2809", ra_hours := parse_ra_to_hours "04:44:37.708",
     dec_deg := parse_dec_to_deg "-28:09:54.403",
     coeffs := [0.9710, -0.8938, -0.1176] },
   { name := "J0519-4546", ra_hours := parse_ra_to_hours "05:19:49.723",
     dec_deg := parse_dec_to_deg "-45:46:43.855",
     coeffs := [1.9380, -0.7470, -0.0739] },
   { name := "3C138", ra_hours := parse_ra_to_hours "05:21:09.900",
     dec_deg := parse_dec_to_deg "+16:38:22.12",
     coeffs := [1.0088, -0.4981, -0.1552, -0.0102, 0.0223] },
   { name := "3C147", ra_hours := parse_ra_to_hours "05:42:36.127",
     dec_deg := parse_dec_to_deg "+49:51:07.23",
     coeffs := [1.4516, -0.6961, -0.2007, 0.0640, -0.0464, 0.0289] },
   { name := "3C190", ra_hours := parse_ra_to_hours "08:01:33.52",
     dec_deg := parse_dec_to_deg "+14:14:42.2",
     coeffs := [0.52853867, -0.93526655, -0.0181853, 0.03045624] },
   { name := "3C196", ra_hours := parse_ra_to_hours "08:13:36.056",
     dec_deg := parse_dec_to_deg "+48:13:02.64",
     coeffs := [1.2872, -0.8530, -0.1534, -0.0200, 0.0201] },
   { name := "3C218", ra_hours := parse_ra_to_hours "09:18:05.669",
     dec_deg := parse_dec_to_deg "-12:05:43.95",
     coeffs := [1.7795, -0.9176, -0.0843, -0.0139, 0.0295] },
   { name := "3C274", ra_hours := parse_ra_to_hours "12:30:49.423",
     dec_deg := parse_dec_to_deg "+12:23:28.04",
     coeffs := [2.4466, -0.8116, -0.0483] },
   { name := "3C286", ra_hours := parse_ra_to_hours "13:31:08.284",
     dec_deg := parse_dec_to_deg "+30:30:32.94",
     coeffs := [1.2481, -0.4507, -0.1798, 0.0357] },
   { name := "3C295", ra_hours := parse_ra_to_hours "14:11:20.647",
     dec_deg := parse_dec_to_deg "+52:12:09.04",
     coeffs := [1.4701, -0.7658, -0.2780, -0.0347, 0.0399] },
   { name := "3C348", ra_hours := parse_ra_to_hours "16:51:08.024",
     dec_deg := parse_dec_to_deg "+04:59:34.91",
     coeffs := [1.8298, -1.0247, -0.0951] },
   { name := "3C353", ra_hours := parse_ra_to_hours "17:20:28.150",
     dec_deg := parse_dec_to_deg "-00:58:46.80",
     coeffs := [1.8627, -0.6938, -0.0998, -0.0732] },
   { name := "3C380", ra_hours := parse_ra_to_hours "18:29:31.781",
     dec_deg := parse_dec_to_deg "+48:44:46.159",
     coeffs := [1.2320, -0.7909, 0.0947, 0.0976, -0.1794, -0.1566] },
   { name := "3C394", ra_hours := parse_ra_to_hours "18:59:23.3",
     dec_deg := parse_dec_to_deg "+12:59:12",
     coeffs := [0.585309, -0.843126, -0.1062818, -0.0806427] },
   { name := "3C405", ra_hours := parse_ra_to_hours "19:59:28.357",
     dec_deg := parse_dec_to_deg "+40:44:02.097",
     coeffs := [3.3498, -1.0022, -0.2246, 0.0227, 0.0425] },
   { name := "3C444", ra_hours := parse_ra_to_hours "22:14:25.752",
     dec_deg := parse_dec_to_deg "-17:01:36.290",
     coeffs := [1.1064, -1.0052, -0.0750, -0.0767] },
   { name := "1445+0958", ra_hours := parse_ra_to_hours "14:45:16.440",
     dec_deg := parse_dec_to_deg "+09:58:35.040",
     coeffs := [0.389314, -0.0280647, -0.600809, 0.0262127] },
   { name := "3C43", ra_hours := parse_ra_to_hours "01:29:59.79",
     dec_deg := parse_dec_to_deg "+23:38:19.4",
     coeffs := [0.55884, -0.732646, 0.00253868, 0.00141399] },
   { name := "B2209+080", ra_hours := parse_ra_to_hours "22:12:01.5685",
     dec_deg := parse_dec_to_deg "+08:19:15.5868",
     coeffs := [0.336, -0.706, 0.0] },
   { name := "NGC7027", ra_hours := parse_ra_to_hours "21:07:01.530",
     dec_deg := parse_dec_to_deg "+42:14:11.500",
     coeffs := [-0.19127711, 2.73384804, -2.54098431, 0.77220705] },
   { name := "PKS1934-63", ra_hours := parse_ra_to_hours "19:39:25.02671",
     dec_deg := parse_dec_to_deg "-63:42:45.6255",
     coeffs := [1.1704, 0.2486, -1.6497, 0.605334] },
   { name := "PKS0408-65", ra_hours := parse_ra_to_hours "04:08:20.37884",
     dec_deg := parse_dec_to_deg "-65:45:09.0806",
     coeffs := [1.3499, -1.0387, -0.3467, 0.0861] }]

/-- `_CALIBRATOR_BY_NAME` lookup (names in `CALIBRATORS` are unique, so
first-match lookup agrees with the Python dict). -/
def calibratorByName (name : String) : Option FluxCalibrator :=
  CALIBRATORS.find? (fun c => c.name = name)

/-- `FluxCalibrator.flux_at_freq` from `pages/flux_cal_page.py`, over the
reals (the Python code uses transcendental float operations). -/
noncomputable def flux_at_freq (c : FluxCalibrator) (freq_mhz : ℝ) : ℝ :=
  if freq_mhz ≤ 0 then 0
  else if c.coeffs ≠ [] then
    let log_f := Real.log (freq_mhz / 1000) / Real.log 10
    let log_s := ((c.coeffs.enum).map (fun ic => ((ic.2 : ℚ) : ℝ) * log_f ^ ic.1)).sum
    (10 : ℝ) ^ log_s
  else if 0 < c.ref_freq_mhz ∧ 0 < c.ref_flux_jy then
    (c.ref_flux_jy : ℝ) * (freq_mhz / (c.ref_freq_mhz : ℝ)) ^ ((c.spectral_index : ℚ) : ℝ)
  else 0

/-- `_angular_separation` from `pages/flux_cal_page.py`, over the reals. -/
noncomputable def angular_separation (ra1_h dec1_d ra2_h dec2_d : ℝ) : ℝ :=
  let dra0 := ra1_h - ra2_h
  let dra := if dra0 > 12 then dra0 - 24 else if dra0 < -12 then dra0 + 24 else dra0
  let mean_dec_rad := Real.pi * ((dec1_d + dec2_d) / 2) / 180
  let dra_deg := dra * 15 * Real.cos mean_dec_rad
  let ddec := dec1_d - dec2_d
  Real.sqrt (dra_deg ^ 2 + ddec ^ 2)

/-- The separation computed for a catalog entry inside the
`_find_nearest_calibrator` loop. -/
noncomputable def calibratorSeparation (ra_h dec_d : ℝ) (cal : FluxCalibrator) : ℝ :=
  angular_separation ra_h dec_d (cal.ra_hours : ℝ) (cal.dec_deg : ℝ)

/-- One step of the linear scan in `_find_nearest_calibrator`; the running
best separation starts as `none` (Python `float("inf")`). -/
noncomputable def nearestStep (ra_h dec_d : ℝ) (best : String × Option ℝ)
    (cal : FluxCalibrator) : String × Option ℝ :=
  let sep := calibratorSeparation ra_h dec_d cal
  match best.2 with
  | none => (cal.name, some sep)
  | some b => if sep < b then (cal.name, some sep) else best

/-- `_find_nearest_calibrator` from `pages/flux_cal_page.py`. -/
noncomputable def find_nearest_calibrator (ra_h dec_d : ℝ) : String :=
  let init := (((CALIBRATORS.head?).map (fun c => c.name)).getD "", (none : Option ℝ))
  (CALIBRATORS.foldl (nearestStep ra_h dec_d) init).1

/-- The dedup key of `_get_unique_flux_cal_configs`: (receiver, window
center frequencies, bandwidth, channel count, coherence flag).  Python's
`tuple(p.center_freqs) if p.center_freqs else ()` is `p.center_freqs`
itself as a tuple. -/
def sourceConfigKey (o : ObservationModel) (src : Source) :
    Option (String × List ℚ × ℚ × ℕ × Bool) :=
  match src.vegas_params with
  | none => none
  | some p =>
    (FREQ_BANDS (getSourceBand o src)).map (fun band =>
      (band.receiver, p.center_freqs, band.bandwidth, p.numchan,
       (getSourceMode o src).is_coherent))

/-- The loop of `_get_unique_flux_cal_configs`: sources without
`vegas_params` are skipped; the first source per key is kept, in
first-seen key order.  `none` models the `KeyError` on an unknown band. -/
def getUniqueAux (o : ObservationModel) :
    List Source → List ((String × List ℚ × ℚ × ℕ × Bool) × Source) →
    Option (List ((String × List ℚ × ℚ × ℕ × Bool) × Source))
  | [], acc => some acc
  | src :: rest, acc =>
    match src.vegas_params with
    | none => getUniqueAux o rest acc
    | some _ => do
      let key ← sourceConfigKey o src
      if key ∈ acc.map Prod.fst then getUniqueAux o rest acc
      else getUniqueAux o rest (acc ++ [(key, src)])

/-- `PreviewPage._get_unique_flux_cal_configs`. -/
def get_unique_flux_cal_configs (o : ObservationModel) (sources : List Source) :
    Option (List ((String × List ℚ × ℚ × ℕ × Bool) × Source)) :=
  getUniqueAux o sources []

/-- The list of lines built by `PreviewPage._generate_flux_cal_sb` before
joining. -/
def generateFluxCalSbLines (o : ObservationModel) (band_label : String)
    (sources : List Source) : Option (List String) := do
  let cal_name := o.flux_cal_source
  let header :=
    ["# GBT Flux Calibration — " ++ band_label,
     "# Generated by PSR-SB-GUI",
     ""]
  let calBlock :=
    match calibratorByName cal_name with
    | some cal =>
      ["Catalog(\"\"\"",
       "format=spherical",
       "coordmode=J2000",
       "HEAD = NAME    RA              DEC",
       padTo32 cal_name ++ " " ++ format_ra cal.ra_hours ++ "  " ++ format_dec cal.dec_deg,
       "\"\"\")",
       ""]
    | none => []
  let cfgs ← get_unique_flux_cal_configs o sources
  let blocks ← (cfgs.enumFrom 1).mapM (fun ic =>
    generateConfigBlock ("config_fluxcal_" ++ toString ic.1) ic.2.2
      (getSourceBand o ic.2.2) (getSourceMode o ic.2.2) false true)
  let seqHeader :=
    ["# === Observation Sequence ===",
     "",
     "ResetConfig()",
     "AutoPeakFocus(location='" ++ cal_name ++ "')",
     "",
     "Slew('" ++ cal_name ++ "')"]
  let dur := pyInt o.flux_cal_scan_duration
  let obsSeq := (cfgs.enumFrom 1).flatMap (fun ic =>
    ["Configure(config_fluxcal_" ++ toString ic.1 ++ ")",
     "Balance()",
     "OnOff('" ++ cal_name ++ "', Offset('AzEl', 1.0, 0.0), " ++ toString dur ++ ")",
     ""])
  pure (header ++ calBlock ++ blocks.flatten ++ seqHeader ++ obsSeq)

/-- `PreviewPage._generate_flux_cal_sb` (`"\n".join(lines)`). -/
def generateFluxCalSb (o : ObservationModel) (band_label : String)
    (sources : List Source) : Option String :=
  (generateFluxCalSbLines o band_label sources).map (String.intercalate "\n")

/-- `PreviewPage._generate_all_sbs`: rebuild the receiver groups, generate
one pulsar block per group (plus one flux-cal block per group when
enabled) and assign the fresh mapping to `observation.generated_sbs`. -/
def generateAllSbs (o : ObservationModel) : Option ObservationModel := do
  let groups ← receiverGroups o
  let pulsar ← groups.mapM (fun g => do
    let text ← generatePulsarSb o g.2.1 g.2.2
    pure (g.2.1 ++ " Pulsars", text))
  let flux ←
    if o.include_flux_cal then
      groups.mapM (fun g => do
        let text ← generateFluxCalSb o g.2.1 g.2.2
        pure (g.2.1 ++ " Flux Cal", text))
    else pure []
  pure { o with generated_sbs := pulsar ++ flux }

/-- The model-state effect of `PreviewPage.initializePage`: it starts by
calling `_generate_all_sbs` (the remaining work only populates widgets). -/
def initializePageModel (o : ObservationModel) : Option ObservationModel :=
  generateAllSbs o

/-- The model-state effect of `PreviewPage._restore_current` (the
"Restore Defaults" button): a no-op without a current label, otherwise it
calls `_generate_all_sbs`, regenerating every entry. -/
def restoreDefaultsModel (current_label : String) (o : ObservationModel) :
    Option ObservationModel :=
  if current_label = "" then some o else generateAllSbs o

/-- State of `SourcePage._parse_catalog` while scanning lines. -/
structure CatalogParseState where
  sources : List Source
  coord_system : CoordSystem
  in_data : Bool
  col_names : List String
deriving DecidableEq, Repr

/-- Python `str.split()` with no argument: split on whitespace runs,
dropping empty tokens. -/
def splitWs (s : String) : List String :=
  (splitBy Char.isWhitespace s).filter (fun t => t ≠ "")

/-- `SourcePage._find_col`: index of the first matching column name. -/
def find_col (col_names : List String) : List String → Option ℕ
  | [] => none
  | c :: cs =>
    match col_names.findIdx? (fun n => n = c) with
    | some i => some i
    | none => find_col col_names cs

/-- One line of `SourcePage._parse_catalog`.  `Except.error` models the
`ValueError`s raised for a missing NAME column or missing coordinate
columns. -/
def parseCatalogLine (st : CatalogParseState) (raw : String) :
    Except String CatalogParseState :=
  let line := pyStrip raw
  if line = "" ∨ strStartsWith line "#" then .ok st
  else if strContainsChar line '=' ∧ st.in_data = false then
    let key := pyLower (pyStrip (strTakeWhile (fun c => c ≠ '=') line))
    let value := pyStrip (strDrop (strDropWhile (fun c => c ≠ '=') line) 1)
    let st1 :=
      if key = "coordmode" then
        let vu := pyUpper value
        { st with coord_system :=
            if vu = "GALACTIC" then CoordSystem.GALACTIC
            else if vu = "B1950" then CoordSystem.B1950
            else CoordSystem.J2000 }
      else st
    if key = "head" then
      .ok { st1 with col_names := (splitWs value).map pyUpper, in_data := true }
    else .ok st1
  else if st.in_data then
    let parts := splitWs line
    if parts.length < st.col_names.length then .ok st
    else
      let name_idx := find_col st.col_names ["NAME"]
      let glon_idx := find_col st.col_names ["GLON"]
      let glat_idx := find_col st.col_names ["GLAT"]
      let ra_idx := find_col st.col_names ["RA"]
      let dec_idx := find_col st.col_names ["DEC"]
      let coords : Except String (ℕ × ℕ × CoordSystem) :=
        match glon_idx, glat_idx with
        | some gi, some bi => .ok (gi, bi, CoordSystem.GALACTIC)
        | _, _ =>
          match ra_idx, dec_idx with
          | some ri, some di => .ok (ri, di, st.coord_system)
          | _, _ => .error "Catalog HEAD line must contain coordinate columns (RA/DEC or GLON/GLAT)."
      match coords with
      | .error e => .error e
      | .ok (c1_idx, c2_idx, cs) =>
        match name_idx with
        | none => .error "Catalog HEAD line must contain a NAME column."
        | some ni =>
          .ok { st with
                coord_system := cs,
                sources := st.sources ++
                  [{ name := parts.getD ni "",
                     coord_system := cs,
                     coord1 := parts.getD c1_idx "",
                     coord2 := parts.getD c2_idx "",
                     scan_length := none }] }
  else .ok st

/-- `SourcePage._parse_catalog` over the file's lines. -/
def parse_catalog (file_lines : List String) : Except String (List Source) :=
  (file_lines.foldlM parseCatalogLine
    { sources := [], coord_system := CoordSystem.J2000, in_data := false, col_names := [] }).map
    (fun st => st.sources)

end PsrSbGui

deriving instance DecidableEq for Except

namespace PsrSbGui

/-- C6: parsing a catalog whose header directive is `HEAD = NAME RA DEC`
followed by the single row `J1713+0747 17:13:49.53 +07:47:37.5` yields
exactly one J2000 Source with those exact coordinate strings and
`scan_length = none`; and any data row with fewer whitespace tokens than
header columns is skipped (the parser state is unchanged). -/
theorem parse_catalog_head_example :
    (parse_catalog ["HEAD = NAME RA DEC", "J1713+0747 17:13:49.53 +07:47:37.5"] =
      Except.ok [{ name := "J1713+0747", coord_system := CoordSystem.J2000,
                   coord1 := "17:13:49.53", coord2 := "+07:47:37.5",
                   scan_length := none }]) ∧
    (∀ (st : CatalogParseState) (row : String), st.in_data = true →
      (splitWs (pyStrip row)).length < st.col_names.length →
      parseCatalogLine st row = Except.ok st) := by
  constructor
  · decide
  · intro st row hin hlen
    simp only [parseCatalogLine]
    by_cases h1 : pyStrip row = "" ∨ strStartsWith (pyStrip row) "#"
    · rw [if_pos h1]
    · rw [if_neg h1]
      rw [if_neg (show ¬(strContainsChar (pyStrip row) '=' = true ∧ st.in_data = false) by
        simp [hin])]
      rw [if_pos hin, if_pos hlen]

/-- Witness for C6: a two-token data row against a three-column header is
skipped without touching the parser state. -/
theorem parse_catalog_head_example_witness :
    CatalogParseState.in_data
      { sources := [], coord_system := CoordSystem.J2000, in_data := true,
        col_names := ["NAME", "RA", "DEC"] } = true ∧
    (splitWs (pyStrip "J1713+0747 17:13:49.53")).length <
      (CatalogParseState.col_names
        { sources := [], coord_system := CoordSystem.J2000, in_data := true,
          col_names := ["NAME", "RA", "DEC"] }).length ∧
    parseCatalogLine
      { sources := [], coord_system := CoordSystem.J2000, in_data := true,
        col_names := ["NAME", "RA", "DEC"] } "J1713+0747 17:13:49.53" =
      Except.ok
        { sources := [], coord_system := CoordSystem.J2000, in_data := true,
          col_names := ["NAME", "RA", "DEC"] } :=
  ⟨rfl, by decide,
   parse_catalog_head_example.2
     { sources := [], coord_system := CoordSystem.J2000, in_data := true,
       col_names := ["NAME", "RA", "DEC"] }
     "J1713+0747 17:13:49.53" rfl (by decide)⟩

/-- A member's image block appears as an infix of a `flatMap`. -/
lemma flatMap_mem_infix {α β : Type _} (f : α → List β) {x : α} {xs : List α}
    (hx : x ∈ xs) : ∃ pre post, xs.flatMap f = pre ++ f x ++ post := by
  induction xs with
  | nil => cases hx
  | cons y ys ih =>
    rcases List.mem_cons.mp hx with rfl | h
    · exact ⟨[], ys.flatMap f, by simp⟩
    · obtain ⟨p, q, hpq⟩ := ih h
      exact ⟨f y ++ p, q, by simp [hpq]⟩

/-- C3 (counterexample): the emitted `Track` duration is NOT always equal
to the requested scan length: a scan length of 61/2 = 30.5 s is truncated
by `int()` to 30 in the emitted `Track` call. -/
theorem pulsar_track_truncates_counterexample :
    pulsarScanLength { name := "X", scan_length := some (mkRat 61 2) } = 30 ∧
    ((30 : ℚ) ≠ mkRat 61 2) ∧
    pulsarSeqLines { } { name := "X", scan_length := some (mkRat 61 2) } =
      ["# --- X ---", "Slew('X')", "Configure(config_X)", "Balance()",
       "Track('X', None, 30)", ""] := by
  refine ⟨by decide, by decide, by decide⟩

/-- C3 (amended): in the compiled pulsar observation sequence, each
source's chunk appears in the emitted lines; the final `Track` uses
duration 120 when the scan length is unset and the integer truncation
(floor, for positive values) of the scan length when set; when
polarization calibration is enabled the chunk contains a 95-second cal
`Track` followed immediately by a reconfigure (`Configure`) before the
science `Track`. -/
theorem pulsar_track_durations (o : ObservationModel) (band_label : String)
    (sources : List Source) (src : Source) (hsrc : src ∈ sources)
    (ls : List String) (hgen : generatePulsarSbLines o band_label sources = some ls) :
    (∃ pre post, ls = pre ++ pulsarSeqLines o src ++ post) ∧
    (src.scan_length = none → pulsarScanLength src = 120) ∧
    (∀ l : ℚ, src.scan_length = some l → 0 < l → pulsarScanLength src = ⌊l⌋) ∧
    (getSourcePolCal o src = true →
      pulsarSeqLines o src =
        ["# --- " ++ src.name ++ " ---",
         "Slew('" ++ src.name ++ "')",
         "Configure(config_" ++ safe_name src.name ++ "_cal)",
         "Balance()",
         "Track('" ++ src.name ++ "', None, 95)",
         "Configure(config_" ++ safe_name src.name ++ ")",
         "Track('" ++ src.name ++ "', None, " ++ toString (pulsarScanLength src) ++ ")",
         ""]) ∧
    (getSourcePolCal o src = false →
      pulsarSeqLines o src =
        ["# --- " ++ src.name ++ " ---",
         "Slew('" ++ src.name ++ "')",
         "Configure(config_" ++ safe_name src.name ++ ")",
         "Balance()",
         "Track('" ++ src.name ++ "', None, " ++ toString (pulsarScanLength src) ++ ")",
         ""]) := by
  refine ⟨?_, ?_, ?_, ?_, ?_⟩
  · simp only [generatePulsarSbLines, Option.bind_eq_bind, Option.bind_eq_some,
      Option.some.injEq] at hgen
    obtain ⟨configs, hc, first, hf, hls⟩ := hgen
    rw [Option.pure_def, Option.some.injEq] at hls
    obtain ⟨p, q, hpq⟩ := flatMap_mem_infix (fun s => pulsarSeqLines o s) hsrc
    refine ⟨(["# GBT Pulsar Observation — " ++ band_label, "# Generated by PSR-SB-GUI", ""] ++
        generateCatalogEntries sources ++ configs.flatten ++
        ["# === Observation Sequence ===", "", "ResetConfig()",
         "AutoPeakFocus(location='" ++ first.name ++ "')", ""]) ++ p, q, ?_⟩
    rw [← hls, hpq]
    simp [List.append_assoc]
  · intro h
    simp [pulsarScanLength, h]
  · intro l hl hpos
    simp only [pulsarScanLength, hl]
    rw [if_pos (by positivity), pyInt, if_pos hpos.le]
  · intro h
    simp [pulsarSeqLines, h]
  · intro h
    simp [pulsarSeqLines, h]

/-- Witness for C3's amended theorem: a single L-band source with a
40-second scan and no polarization calibration. -/
theorem pulsar_track_durations_witness :
    (({ name := "J1909-3744", coord1 := "19:09:47.43", coord2 := "-37:44:14.5",
        scan_length := some 40 } : Source) ∈
      [({ name := "J1909-3744", coord1 := "19:09:47.43", coord2 := "-37:44:14.5",
          scan_length := some 40 } : Source)]) ∧
    (generatePulsarSbLines { } "L-band"
      [{ name := "J1909-3744", coord1 := "19:09:47.43", coord2 := "-37:44:14.5",
         scan_length := some 40 }] =
      some
        (["# GBT Pulsar Observation — L-band", "# Generated by PSR-SB-GUI", ""] ++
         ["Catalog(\"\"\"", "format=spherical", "coordmode=J2000",
          "HEAD = NAME    RA              DEC",
          "J1909-3744                       19:09:47.43  -37:44:14.5", "\"\"\")", ""] ++
         ["# === Observation Sequence ===", "", "ResetConfig()",
          "AutoPeakFocus(location='J1909-3744')", ""] ++
         ["# --- J1909-3744 ---", "Slew('J1909-3744')", "Configure(config_J1909_3744)",
          "Balance()", "Track('J1909-3744', None, 40)", ""])) ∧
    ((∃ pre post,
        (["# GBT Pulsar Observation — L-band", "# Generated by PSR-SB-GUI", ""] ++
         ["Catalog(\"\"\"", "format=spherical", "coordmode=J2000",
          "HEAD = NAME    RA              DEC",
          "J1909-3744                       19:09:47.43  -37:44:14.5", "\"\"\")", ""] ++
         ["# === Observation Sequence ===", "", "ResetConfig()",
          "AutoPeakFocus(location='J1909-3744')", ""] ++
         ["# --- J1909-3744 ---", "Slew('J1909-3744')", "Configure(config_J1909_3744)",
          "Balance()", "Track('J1909-3744', None, 40)", ""]) =
          pre ++ pulsarSeqLines { }
            { name := "J1909-3744", coord1 := "19:09:47.43", coord2 := "-37:44:14.5",
              scan_length := some 40 } ++ post) ∧
      (({ name := "J1909-3744", coord1 := "19:09:47.43", coord2 := "-37:44:14.5",
          scan_length := some 40 } : Source).scan_length = none →
        pulsarScanLength
          { name := "J1909-3744", coord1 := "19:09:47.43", coord2 := "-37:44:14.5",
            scan_length := some 40 } = 120) ∧
      (∀ l : ℚ,
        ({ name := "J1909-3744", coord1 := "19:09:47.43", coord2 := "-37:44:14.5",
           scan_length := some 40 } : Source).scan_length = some l → 0 < l →
        pulsarScanLength
          { name := "J1909-3744", coord1 := "19:09:47.43", coord2 := "-37:44:14.5",
            scan_length := some 40 } = ⌊l⌋) ∧
      (getSourcePolCal { }
          { name := "J1909-3744", coord1 := "19:09:47.43", coord2 := "-37:44:14.5",
            scan_length := some 40 } = true →
        pulsarSeqLines { }
            { name := "J1909-3744", coord1 := "19:09:47.43", coord2 := "-37:44:14.5",
              scan_length := some 40 } =
          ["# --- " ++ "J1909-3744" ++ " ---",
           "Slew('" ++ "J1909-3744" ++ "')",
           "Configure(config_" ++ safe_name "J1909-3744" ++ "_cal)",
           "Balance()",
           "Track('" ++ "J1909-3744" ++ "', None, 95)",
           "Configure(config_" ++ safe_name "J1909-3744" ++ ")",
           "Track('" ++ "J1909-3744" ++ "', None, " ++
             toString (pulsarScanLength
               { name := "J1909-3744", coord1 := "19:09:47.43", coord2 := "-37:44:14.5",
                 scan_length := some 40 }) ++ ")",
           ""]) ∧
      (getSourcePolCal { }
          { name := "J1909-3744", coord1 := "19:09:47.43", coord2 := "-37:44:14.5",
            scan_length := some 40 } = false →
        pulsarSeqLines { }
            { name := "J1909-3744", coord1 := "19:09:47.43", coord2 := "-37:44:14.5",
              scan_length := some 40 } =
          ["# --- " ++ "J1909-3744" ++ " ---",
           "Slew('" ++ "J1909-3744" ++ "')",
           "Configure(config_" ++ safe_name "J1909-3744" ++ ")",
           "Balance()",
           "Track('" ++ "J1909-3744" ++ "', None, " ++
             toString (pulsarScanLength
               { name := "J1909-3744", coord1 := "19:09:47.43", coord2 := "-37:44:14.5",
                 scan_length := some 40 }) ++ ")",
           ""])) :=
  ⟨by decide, by decide,
   pulsar_track_durations { } "L-band"
     [{ name := "J1909-3744", coord1 := "19:09:47.43", coord2 := "-37:44:14.5",
        scan_length := some 40 }]
     { name := "J1909-3744", coord1 := "19:09:47.43", coord2 := "-37:44:14.5",
       scan_length := some 40 }
     (by decide) _ (by decide)⟩

/-- C2 (counterexample): the scheduling-block mapping does NOT preserve
user edits.  With one L-band source, an edited "L-band Pulsars" entry and
an edited "L-band Flux Cal" entry, reopening the preview
(`initializePage`) overwrites the edited pulsar entry, and pressing
"Restore Defaults" while viewing "L-band Pulsars" also overwrites the
OTHER entry ("L-band Flux Cal"). -/
theorem generated_sbs_edits_lost_counterexample :
    (restoreDefaultsModel "L-band Pulsars"
      { sources := [{ name := "J1909-3744", coord1 := "19:09:47.43",
                      coord2 := "-37:44:14.5", scan_length := some 40 }],
        include_flux_cal := true, flux_cal_source := "",
        generated_sbs := [("L-band Pulsars", "EDIT A"), ("L-band Flux Cal", "EDIT B")] }).map
      (fun m => lookupSb m.generated_sbs "L-band Flux Cal") ≠ some (some "EDIT B") ∧
    (initializePageModel
      { sources := [{ name := "J1909-3744", coord1 := "19:09:47.43",
                      coord2 := "-37:44:14.5", scan_length := some 40 }],
        include_flux_cal := true, flux_cal_source := "",
        generated_sbs := [("L-band Pulsars", "EDIT A"), ("L-band Flux Cal", "EDIT B")] }).map
      (fun m => lookupSb m.generated_sbs "L-band Pulsars") ≠ some (some "EDIT A") := by
  refine ⟨by decide, by decide⟩

/-- The dedup key of a source does not depend on the stored
`generated_sbs` mapping. -/
lemma sourceConfigKey_sbs (m : ObservationModel) (e1 e2 : List (String × String))
    (src : Source) :
    sourceConfigKey { m with generated_sbs := e1 } src =
      sourceConfigKey { m with generated_sbs := e2 } src := by
  cases m; rfl

/-- The flux-cal dedup scan does not depend on the stored `generated_sbs`
mapping. -/
lemma getUniqueAux_sbs (m : ObservationModel) (e1 e2 : List (String × String)) :
    ∀ (l : List Source) (acc : List ((String × List ℚ × ℚ × ℕ × Bool) × Source)),
      getUniqueAux { m with generated_sbs := e1 } l acc =
        getUniqueAux { m with generated_sbs := e2 } l acc := by
  intro l
  induction l with
  | nil => intro acc; rfl
  | cons src rest ih =>
    intro acc
    rw [getUniqueAux, getUniqueAux]
    cases hv : src.vegas_params with
    | none => exact ih acc
    | some p =>
      simp only [sourceConfigKey_sbs m e1 e2 src, ih]

/-- C2 (amended): regenerating the scheduling-block mapping rebuilds every
entry from the model's sources and settings, independent of all previously
stored (possibly user-edited) texts; regeneration happens on every preview
initialization, and the restore-defaults action (for any non-empty current
label) regenerates all entries, not only the requested one. -/
theorem generated_sbs_regenerated_wholesale (m : ObservationModel)
    (e1 e2 : List (String × String)) :
    generateAllSbs { m with generated_sbs := e1 } =
      generateAllSbs { m with generated_sbs := e2 } ∧
    initializePageModel m = generateAllSbs m ∧
    (∀ lbl : String, lbl ≠ "" → restoreDefaultsModel lbl m = generateAllSbs m) := by
  refine ⟨?_, rfl, ?_⟩
  · obtain ⟨s, gfr, gom, psc, ipc, ifc, fcs, fcd, gsbs, op⟩ := m
    have hU := getUniqueAux_sbs ⟨s, gfr, gom, psc, ipc, ifc, fcs, fcd, gsbs, op⟩ e1 e2
    simp only [generateAllSbs, receiverGroups, generatePulsarSb, generatePulsarSbLines,
      generateSourceConfig, getSourceBand, getSourceMode, getSourcePolCal, pulsarSeqLines,
      generateFluxCalSb, generateFluxCalSbLines, get_unique_flux_cal_configs, hU]
  · intro lbl hlbl
    rw [restoreDefaultsModel, if_neg hlbl]

/-- Witness for C2's amended theorem: concrete edits and the non-empty
label "L-band Pulsars". -/
theorem generated_sbs_regenerated_wholesale_witness :
    generateAllSbs
        { sources := [], generated_sbs := [("L-band Pulsars", "EDIT A")] } =
      generateAllSbs
        { sources := [], generated_sbs := [] } ∧
    initializePageModel { sources := [] } = generateAllSbs { sources := [] } ∧
    ("L-band Pulsars" : String) ≠ "" ∧
    restoreDefaultsModel "L-band Pulsars" { sources := [] } =
      generateAllSbs { sources := [] } :=
  ⟨(generated_sbs_regenerated_wholesale { sources := [] } [("L-band Pulsars", "EDIT A")] []).1,
   (generated_sbs_regenerated_wholesale { sources := [] } [] []).2.1,
   by decide,
   (generated_sbs_regenerated_wholesale { sources := [] } [] []).2.2 "L-band Pulsars" (by decide)⟩

end PsrSbGui

namespace PsrSbGui

/-- Evaluation helper: the coherent-mode channel target for an 800 MHz
bandwidth. -/
lemma np2_800_div_15 : nearest_power_of_2 ((800 : ℚ) / 1.5) = 512 := by
  have h1 : ((800 : ℚ) / 1.5) = 1600 / 3 := by norm_num
  have hfl : ⌊(1600 / 3 : ℚ)⌋₊ = 533 := by
    rw [Nat.floor_eq_iff (by norm_num)]
    norm_num
  have hlog : floorLog2 533 = 9 := by decide
  rw [h1, nearest_power_of_2, if_neg (by norm_num), hfl, hlog]
  norm_num
  rw [abs_of_pos (by norm_num), abs_of_pos (by norm_num)]
  norm_num

end PsrSbGui

namespace PsrSbGui

/-! ## Theorems -/

lemma floorLog2Aux_eq (fuel : ℕ) : ∀ n, n ≤ fuel → floorLog2Aux fuel n = Nat.log 2 n := by
  induction fuel with
  | zero =>
    intro n hn
    interval_cases n
    simp [floorLog2Aux]
  | succ f ih =>
    intro n hn
    rw [floorLog2Aux]
    by_cases h2 : 2 ≤ n
    · rw [if_pos h2, ih (n / 2) (by omega), Nat.log_of_one_lt_of_le one_lt_two h2]
    · rw [if_neg h2]
      interval_cases n
      · simp
      · simp [Nat.log_one_right]

lemma floorLog2_eq (n : ℕ) : floorLog2 n = Nat.log 2 n := floorLog2Aux_eq n n le_rfl

lemma nearest_pow2_main (x : ℚ) (hx : 1 < x) :
    (∃ k : ℕ, nearest_power_of_2 x = 2 ^ k) ∧
    (∀ k : ℕ, |x - (nearest_power_of_2 x : ℚ)| ≤ |x - ((2 ^ k : ℕ) : ℚ)|) ∧
    (∀ k : ℕ, |x - ((2 ^ k : ℕ) : ℚ)| = |x - (nearest_power_of_2 x : ℚ)| →
      (nearest_power_of_2 x : ℚ) ≤ ((2 ^ k : ℕ) : ℚ)) := by
  have hx0 : (0 : ℚ) ≤ x := le_trans zero_le_one hx.le
  set N := floorLog2 ⌊x⌋₊ with hN
  have hNlog : N = Nat.log 2 ⌊x⌋₊ := floorLog2_eq _
  have hfl1 : 1 ≤ ⌊x⌋₊ := Nat.le_floor (by exact_mod_cast hx.le)
  have hlo_le : ((2 ^ N : ℕ) : ℚ) ≤ x := by
    have h1 : 2 ^ N ≤ ⌊x⌋₊ := by
      rw [hNlog]; exact Nat.pow_log_le_self 2 (by omega)
    calc ((2 ^ N : ℕ) : ℚ) ≤ (⌊x⌋₊ : ℚ) := by exact_mod_cast h1
    _ ≤ x := Nat.floor_le hx0
  have hhi_gt : x < ((2 ^ (N + 1) : ℕ) : ℚ) := by
    have h1 : ⌊x⌋₊ < 2 ^ (N + 1) := by
      rw [hNlog]; exact Nat.lt_pow_succ_log_self one_lt_two _
    calc x < (⌊x⌋₊ : ℚ) + 1 := Nat.lt_floor_add_one x
    _ ≤ ((2 ^ (N + 1) : ℕ) : ℚ) := by exact_mod_cast h1
  have key : ∀ k : ℕ, ((2 ^ k : ℕ) : ℚ) ≤ ((2 ^ N : ℕ) : ℚ) ∨
      ((2 ^ (N + 1) : ℕ) : ℚ) ≤ ((2 ^ k : ℕ) : ℚ) := by
    intro k
    rcases le_or_lt k N with h | h
    · left; exact_mod_cast Nat.pow_le_pow_right (by norm_num) h
    · right; exact_mod_cast Nat.pow_le_pow_right (by norm_num) h
  have hdlo : |x - ((2 ^ N : ℕ) : ℚ)| = x - ((2 ^ N : ℕ) : ℚ) :=
    abs_of_nonneg (sub_nonneg.mpr hlo_le)
  have hdhi : |x - ((2 ^ (N + 1) : ℕ) : ℚ)| = ((2 ^ (N + 1) : ℕ) : ℚ) - x := by
    rw [abs_sub_comm]; exact abs_of_nonneg (sub_nonneg.mpr hhi_gt.le)
  have hdist_lo : ∀ k : ℕ, ((2 ^ k : ℕ) : ℚ) ≤ ((2 ^ N : ℕ) : ℚ) →
      x - ((2 ^ N : ℕ) : ℚ) ≤ |x - ((2 ^ k : ℕ) : ℚ)| := by
    intro k hk
    have h1 : ((2 ^ k : ℕ) : ℚ) ≤ x := le_trans hk hlo_le
    rw [abs_of_nonneg (sub_nonneg.mpr h1)]
    linarith
  have hdist_hi : ∀ k : ℕ, ((2 ^ (N + 1) : ℕ) : ℚ) ≤ ((2 ^ k : ℕ) : ℚ) →
      ((2 ^ (N + 1) : ℕ) : ℚ) - x ≤ |x - ((2 ^ k : ℕ) : ℚ)| := by
    intro k hk
    have h1 : x ≤ ((2 ^ k : ℕ) : ℚ) := le_trans hhi_gt.le hk
    rw [abs_sub_comm, abs_of_nonneg (sub_nonneg.mpr h1)]
    linarith
  by_cases hpow : ((2 ^ N : ℕ) : ℚ) = x
  · have hv : nearest_power_of_2 x = 2 ^ N := by
      rw [nearest_power_of_2, if_neg (not_le.mpr hx), ← hN]
      simp [hpow]
    have hzero : |x - (nearest_power_of_2 x : ℚ)| = 0 := by
      rw [hv, hpow]; simp
    refine ⟨⟨N, hv⟩, ?_, ?_⟩
    · intro k; rw [hzero]; exact abs_nonneg _
    · intro k hk
      rw [hzero] at hk
      have h2 : ((2 ^ k : ℕ) : ℚ) = x := by
        have h3 := abs_eq_zero.mp hk
        linarith
      rw [hv, hpow]
      exact le_of_eq h2.symm
  · have hv : nearest_power_of_2 x =
        if |x - ((2 ^ N : ℕ) : ℚ)| ≤ |x - ((2 ^ (N + 1) : ℕ) : ℚ)| then 2 ^ N else 2 ^ (N + 1) := by
      rw [nearest_power_of_2, if_neg (not_le.mpr hx), ← hN]
      simp only [if_neg hpow]
    have hlo_lt : ((2 ^ N : ℕ) : ℚ) < x := lt_of_le_of_ne hlo_le hpow
    by_cases hC : |x - ((2 ^ N : ℕ) : ℚ)| ≤ |x - ((2 ^ (N + 1) : ℕ) : ℚ)|
    · have hv2 : nearest_power_of_2 x = 2 ^ N := by rw [hv, if_pos hC]
      rw [hdlo, hdhi] at hC
      refine ⟨⟨N, hv2⟩, ?_, ?_⟩
      · intro k
        rw [hv2, hdlo]
        rcases key k with hk | hk
        · exact hdist_lo k hk
        · exact le_trans (by linarith) (hdist_hi k hk)
      · intro k hk
        rw [hv2] at hk ⊢
        rw [hdlo] at hk
        rcases key k with h | h
        · have h1 : ((2 ^ k : ℕ) : ℚ) ≤ x := le_trans h hlo_le
          rw [abs_of_nonneg (sub_nonneg.mpr h1)] at hk
          linarith
        · calc ((2 ^ N : ℕ) : ℚ) ≤ ((2 ^ (N + 1) : ℕ) : ℚ) := le_trans hlo_le hhi_gt.le
          _ ≤ ((2 ^ k : ℕ) : ℚ) := h
    · have hv2 : nearest_power_of_2 x = 2 ^ (N + 1) := by rw [hv, if_neg hC]
      rw [hdlo, hdhi] at hC
      push_neg at hC
      refine ⟨⟨N + 1, hv2⟩, ?_, ?_⟩
      · intro k
        rw [hv2, hdhi]
        rcases key k with hk | hk
        · exact le_trans (by linarith) (hdist_lo k hk)
        · exact hdist_hi k hk
      · intro k hk
        rw [hv2] at hk ⊢
        rw [hdhi] at hk
        rcases key k with h | h
        · have h1 := hdist_lo k h
          rw [hk] at h1
          linarith
        · exact h

/-- C10: `_nearest_power_of_2` is total and deterministic: every input
`x ≤ 1` returns 1, and every `x > 1` returns a power of two minimising
`|x − 2^k|`, returning the smaller of the two bracketing powers when `x`
is exactly equidistant between them (formalised as: the result is the
least power of two achieving the minimum distance). -/
theorem nearest_power_of_2_minimises (x : ℚ) :
    (x ≤ 1 → nearest_power_of_2 x = 1) ∧
    (1 < x →
      (∃ k : ℕ, nearest_power_of_2 x = 2 ^ k) ∧
      (∀ k : ℕ, |x - (nearest_power_of_2 x : ℚ)| ≤ |x - ((2 ^ k : ℕ) : ℚ)|) ∧
      (∀ k : ℕ, |x - ((2 ^ k : ℕ) : ℚ)| = |x - (nearest_power_of_2 x : ℚ)| →
        (nearest_power_of_2 x : ℚ) ≤ ((2 ^ k : ℕ) : ℚ))) :=
  ⟨fun hx => by rw [nearest_power_of_2, if_pos hx], nearest_pow2_main x⟩

/-- C1 (counterexample): for the "820 MHz" band (bandwidth 200) in
incoherent-search mode the resolver does NOT fall back to 8192 with scale
1045: the default channel count 4096 IS present in the 200 MHz incoherent
table, so the resolver keeps 4096 and looks up scale 540. -/
theorem incoherent_820_defaults_counterexample :
    (get_default_vegas_params "820 MHz" ObsMode.SEARCH).map (fun p => p.numchan) =
      some 4096 ∧
    (get_default_vegas_params "820 MHz" ObsMode.SEARCH).map (fun p => p.numchan) ≠
      some 8192 ∧
    (get_default_vegas_params "820 MHz" ObsMode.SEARCH).map (fun p => p.scale) ≠
      some 1045 ∧
    4096 ∈ get_valid_numchan_values 200 false := by
  refine ⟨by decide, by decide, by decide, by decide⟩

/-- C1 (amended): resolving defaults for the "820 MHz" band (bandwidth
200) in incoherent-search mode yields channel count 4096 (present in the
200 MHz incoherent table, so no fallback occurs) with scale 540, the
incoherent table entry for (200, 4096). -/
theorem incoherent_820_defaults :
    (get_default_vegas_params "820 MHz" ObsMode.SEARCH).map (fun p => p.numchan) =
      some 4096 ∧
    (get_default_vegas_params "820 MHz" ObsMode.SEARCH).map (fun p => p.scale) =
      some 540 ∧
    get_recommended_scale 200 4096 false = some 540 ∧
    4096 ∈ get_valid_numchan_values 200 false := by
  refine ⟨by decide, by decide, by decide, by decide⟩

/-- C4: resolving defaults for the "L-band" band (bandwidth 800) in
coherent-fold mode yields channel count 512 (the power of two nearest to
800/1.5), accumulation length 16 giving integration time exactly
16·512/(800e6) = 1.024e-5 s, and scale 1585 (the coherent table entry for
(800, 512)). -/
theorem l_band_coherent_fold_defaults :
    nearest_power_of_2 ((800 : ℚ) / 1.5) = 512 ∧
    (get_default_vegas_params "L-band" ObsMode.COHERENT_FOLD).map
      (fun p => (p.numchan, p.scale)) = some (512, 1585) ∧
    (get_default_vegas_params "L-band" ObsMode.COHERENT_FOLD).map (fun p => p.tint) =
      some ((16 * 512 : ℚ) / (800 * 1000000)) ∧
    ((16 * 512 : ℚ) / (800 * 1000000)) = 1.024e-5 ∧
    get_recommended_scale 800 512 true = some 1585 := by
  have hb : FREQ_BANDS "L-band" =
      some { label := "L-band", receiver := "Rcvr1_2", bandwidth := 800,
             center_freq := some 1500 } := rfl
  have hbw : ⌊(800 : ℚ)⌋₊ = 800 := by norm_num
  have hnp : nearest_power_of_2 (((800 : ℕ) : ℚ) / 1.5) = 512 := by
    push_cast
    exact np2_800_div_15
  have hmem : 512 ∈ get_valid_numchan_values 800 true := by decide
  refine ⟨np2_800_div_15, ?_, ?_, by norm_num, by decide⟩
  · simp only [get_default_vegas_params, hb, hbw, hnp, ObsMode.is_coherent,
      Option.bind_eq_bind, Option.some_bind, if_pos hmem, if_true]
    rfl
  · simp only [get_default_vegas_params, hb, hbw, hnp, ObsMode.is_coherent,
      Option.bind_eq_bind, Option.some_bind, if_pos hmem, if_true]
    simp only [Option.map_some, Option.some.injEq, compute_tint]
    push_cast
    norm_num
    rw [show get_recommended_scale 800 512 true = some 1585 from by decide]
    rfl

/-- The linear scan of `_find_nearest_calibrator` started from a finite
best value either keeps the initial best (when nothing is strictly
smaller) or ends at the first strict minimiser. -/
lemma nearestStep_fold (ra dec : ℝ) :
    ∀ (l : List FluxCalibrator) (bn : String) (b : ℝ),
      (l.foldl (nearestStep ra dec) (bn, some b) = (bn, some b) ∧
        ∀ c ∈ l, b ≤ calibratorSeparation ra dec c) ∨
      (∃ i : ℕ, ∃ h : i < l.length,
        l.foldl (nearestStep ra dec) (bn, some b) =
          ((l.get ⟨i, h⟩).name, some (calibratorSeparation ra dec (l.get ⟨i, h⟩))) ∧
        calibratorSeparation ra dec (l.get ⟨i, h⟩) < b ∧
        (∀ c ∈ l, calibratorSeparation ra dec (l.get ⟨i, h⟩) ≤ calibratorSeparation ra dec c) ∧
        (∀ j : ℕ, ∀ hj : j < i,
          calibratorSeparation ra dec (l.get ⟨i, h⟩) <
            calibratorSeparation ra dec (l.get ⟨j, hj.trans h⟩))) := by
  intro l
  induction l with
  | nil =>
    intro bn b
    left
    exact ⟨rfl, by simp⟩
  | cons c cs ih =>
    intro bn b
    rw [List.foldl_cons]
    by_cases hlt : calibratorSeparation ra dec c < b
    · have hstep : nearestStep ra dec (bn, some b) c =
          (c.name, some (calibratorSeparation ra dec c)) := by
        simp [nearestStep, hlt]
      rw [hstep]
      rcases ih c.name (calibratorSeparation ra dec c) with
        ⟨heq, hmin⟩ | ⟨i, h, heq, hlt2, hmin, hfirst⟩
      · right
        refine ⟨0, by simp, by simpa using heq, hlt, ?_, ?_⟩
        · intro x hx
          rcases List.mem_cons.mp hx with rfl | hx
          · simp
          · simpa using hmin x hx
        · intro j hj
          omega
      · right
        refine ⟨i + 1, by simpa using h, by simpa using heq, ?_, ?_, ?_⟩
        · simpa using lt_trans hlt2 hlt
        · intro x hx
          rcases List.mem_cons.mp hx with rfl | hx
          · simpa using le_of_lt hlt2
          · simpa using hmin x hx
        · intro j hj
          match j, hj with
          | 0, _ => simpa using hlt2
          | j + 1, hj => simpa using hfirst j (by omega)
    · have hstep : nearestStep ra dec (bn, some b) c = (bn, some b) := by
        simp [nearestStep, hlt]
      rw [hstep]
      rcases ih bn b with ⟨heq, hmin⟩ | ⟨i, h, heq, hlt2, hmin, hfirst⟩
      · left
        refine ⟨heq, ?_⟩
        intro x hx
        rcases List.mem_cons.mp hx with rfl | hx
        · exact le_of_not_lt hlt
        · exact hmin x hx
      · right
        refine ⟨i + 1, by simpa using h, by simpa using heq, hlt2, ?_, ?_⟩
        · intro x hx
          rcases List.mem_cons.mp hx with rfl | hx
          · simpa using le_trans (le_of_lt hlt2) (le_of_not_lt hlt)
          · simpa using hmin x hx
        · intro j hj
          match j, hj with
          | 0, _ => simpa using lt_of_lt_of_le hlt2 (le_of_not_lt hlt)
          | j + 1, hj => simpa using hfirst j (by omega)

/-- The full scan over a non-empty catalog returns the first minimiser. -/
lemma nearestCons (ra dec : ℝ) (c : FluxCalibrator) (cs : List FluxCalibrator) :
    ∃ i : ℕ, ∃ h : i < (c :: cs).length,
      ((c :: cs).foldl (nearestStep ra dec) (c.name, none)).1 = ((c :: cs).get ⟨i, h⟩).name ∧
      (∀ x ∈ (c :: cs),
        calibratorSeparation ra dec ((c :: cs).get ⟨i, h⟩) ≤ calibratorSeparation ra dec x) ∧
      (∀ j : ℕ, ∀ hj : j < i,
        calibratorSeparation ra dec ((c :: cs).get ⟨i, h⟩) <
          calibratorSeparation ra dec ((c :: cs).get ⟨j, hj.trans h⟩)) := by
  rw [List.foldl_cons]
  have hstep : nearestStep ra dec (c.name, none) c =
      (c.name, some (calibratorSeparation ra dec c)) := by
    simp [nearestStep]
  rw [hstep]
  rcases nearestStep_fold ra dec cs c.name (calibratorSeparation ra dec c) with
    ⟨heq, hmin⟩ | ⟨i, h, heq, hlt2, hmin, hfirst⟩
  · refine ⟨0, by simp, by simp [heq], ?_, ?_⟩
    · intro x hx
      rcases List.mem_cons.mp hx with rfl | hx
      · simp
      · simpa using hmin x hx
    · intro j hj
      omega
  · refine ⟨i + 1, by simpa using h, by simp [heq], ?_, ?_⟩
    · intro x hx
      rcases List.mem_cons.mp hx with rfl | hx
      · simpa using le_of_lt hlt2
      · simpa using hmin x hx
    · intro j hj
      match j, hj with
      | 0, _ => simpa using hlt2
      | j + 1, hj => simpa using hfirst j (by omega)

/-- C7: for every query position the nearest-calibrator search returns
the calibrator of minimum angular separation, and among equal minima the
one appearing first in the fixed catalog order (every earlier calibrator
has strictly larger separation). -/
theorem find_nearest_calibrator_first_min (ra dec : ℝ) :
    ∃ i : ℕ, ∃ h : i < CALIBRATORS.length,
      find_nearest_calibrator ra dec = (CALIBRATORS.get ⟨i, h⟩).name ∧
      (∀ c ∈ CALIBRATORS,
        calibratorSeparation ra dec (CALIBRATORS.get ⟨i, h⟩) ≤
          calibratorSeparation ra dec c) ∧
      (∀ j : ℕ, ∀ hj : j < i,
        calibratorSeparation ra dec (CALIBRATORS.get ⟨i, h⟩) <
          calibratorSeparation ra dec (CALIBRATORS.get ⟨j, hj.trans h⟩)) := by
  rcases hC : CALIBRATORS with _ | ⟨c, cs⟩
  · simp [CALIBRATORS] at hC
  · simp only [find_nearest_calibrator, hC, List.head?_cons, Option.map_some,
      Option.getD_some]
    exact nearestCons ra dec c cs

/-- C9: `_angular_separation` is symmetric in its two positions, exactly,
including across the right-ascension wraparound correction (subtract 24
when the RA difference exceeds 12 h, add 24 when it is below −12 h). -/
theorem angular_separation_symm (ra1 dec1 ra2 dec2 : ℝ) :
    angular_separation ra1 dec1 ra2 dec2 = angular_separation ra2 dec2 ra1 dec1 := by
  simp only [angular_separation]
  have h1 : ra2 - ra1 = -(ra1 - ra2) := by ring
  have hwrap : (if -(ra1 - ra2) > 12 then -(ra1 - ra2) - 24
      else if -(ra1 - ra2) < -12 then -(ra1 - ra2) + 24 else -(ra1 - ra2)) =
      -(if ra1 - ra2 > 12 then ra1 - ra2 - 24
        else if ra1 - ra2 < -12 then ra1 - ra2 + 24 else ra1 - ra2) := by
    split_ifs <;> linarith
  rw [h1, hwrap]
  have h2 : (dec2 + dec1) / 2 = (dec1 + dec2) / 2 := by ring
  rw [h2]
  congr 1
  ring

/-- C8: for a power-law calibrator (no polynomial coefficients, positive
reference frequency and flux), `flux_at_freq` at exactly the reference
frequency returns exactly the reference flux. -/
theorem flux_at_ref_freq (c : FluxCalibrator) (hc : c.coeffs = [])
    (hf : 0 < c.ref_freq_mhz) (hs : 0 < c.ref_flux_jy) :
    flux_at_freq c ((c.ref_freq_mhz : ℚ) : ℝ) = ((c.ref_flux_jy : ℚ) : ℝ) := by
  have h1 : ¬(((c.ref_freq_mhz : ℚ) : ℝ) ≤ 0) := by
    push_neg
    exact_mod_cast hf
  have h2 : ¬(c.coeffs ≠ []) := by simp [hc]
  rw [flux_at_freq, if_neg h1, if_neg h2, if_pos ⟨hf, hs⟩]
  have h3 : ((c.ref_freq_mhz : ℚ) : ℝ) ≠ 0 := by
    intro h
    exact h1 (le_of_eq h)
  rw [div_self h3, Real.one_rpow, mul_one]

/-- Witness for C8: the catalog's only power-law calibrator, "1413+1509"
(reference 0.41 Jy at 4850 MHz), satisfies the hypotheses and its flux at
4850 MHz is exactly 0.41 Jy. -/
theorem flux_at_ref_freq_witness :
    CALIBRATORS.head? = some
      { name := "1413+1509", ra_hours := parse_ra_to_hours "14:13:41.660",
        dec_deg := parse_dec_to_deg "+15:09:39.524",
        ref_freq_mhz := 4850, ref_flux_jy := mkRat 41 100,
        spectral_index := mkRat 20 100 } ∧
    ({ name := "1413+1509", ra_hours := parse_ra_to_hours "14:13:41.660",
       dec_deg := parse_dec_to_deg "+15:09:39.524",
       ref_freq_mhz := 4850, ref_flux_jy := mkRat 41 100,
       spectral_index := mkRat 20 100 } : FluxCalibrator).coeffs = [] ∧
    (0 : ℚ) < 4850 ∧ (0 : ℚ) < mkRat 41 100 ∧
    flux_at_freq
      { name := "1413+1509", ra_hours := parse_ra_to_hours "14:13:41.660",
        dec_deg := parse_dec_to_deg "+15:09:39.524",
        ref_freq_mhz := 4850, ref_flux_jy := mkRat 41 100,
        spectral_index := mkRat 20 100 } (((4850 : ℚ)) : ℝ) =
      ((mkRat 41 100 : ℚ) : ℝ) :=
  ⟨rfl, rfl, by decide, by decide,
   flux_at_ref_freq
     { name := "1413+1509", ra_hours := parse_ra_to_hours "14:13:41.660",
       dec_deg := parse_dec_to_deg "+15:09:39.524",
       ref_freq_mhz := 4850, ref_flux_jy := mkRat 41 100,
       spectral_index := mkRat 20 100 } rfl (by decide) (by decide)⟩

/-- Witness for C10: at `x = 6` (equidistant between 4 and 8) the
hypothesis `1 < x` holds and the minimality conclusions follow; at
`x = 1/2` the small-input clause gives 1. -/
theorem nearest_power_of_2_minimises_witness :
    ((1 : ℚ) < 6 ∧
      (∃ k : ℕ, nearest_power_of_2 6 = 2 ^ k) ∧
      (∀ k : ℕ, |(6 : ℚ) - (nearest_power_of_2 6 : ℚ)| ≤ |(6 : ℚ) - ((2 ^ k : ℕ) : ℚ)|) ∧
      (∀ k : ℕ, |(6 : ℚ) - ((2 ^ k : ℕ) : ℚ)| = |(6 : ℚ) - (nearest_power_of_2 6 : ℚ)| →
        (nearest_power_of_2 6 : ℚ) ≤ ((2 ^ k : ℕ) : ℚ))) ∧
    ((1 / 2 : ℚ) ≤ 1 ∧ nearest_power_of_2 (1 / 2) = 1) :=
  ⟨⟨by norm_num, (nearest_power_of_2_minimises 6).2 (by norm_num)⟩,
   ⟨by norm_num, (nearest_power_of_2_minimises (1 / 2)).1 (by norm_num)⟩⟩

end PsrSbGui
namespace PsrSbGui

/-- A source without `vegas_params` has no dedup key. -/
lemma sourceConfigKey_none (o : ObservationModel) (src : Source)
    (hv : src.vegas_params = none) : sourceConfigKey o src = none := by
  simp [sourceConfigKey, hv]

/-- Invariant of the `_get_unique_flux_cal_configs` loop: the accumulated
list grows by entries with fresh keys; on success the result is complete
for the scanned sources, each new entry is the first source bearing its
key, and new keys appear in order of their first occurrence. -/
lemma getUniqueAux_spec (o : ObservationModel) :
    ∀ (l : List Source) (acc r : List ((String × List ℚ × ℚ × ℕ × Bool) × Source)),
      getUniqueAux o l acc = some r →
      ∃ Δ, r = acc ++ Δ ∧
        (∀ e ∈ Δ, e.1 ∉ acc.map Prod.fst) ∧
        ((acc.map Prod.fst).Nodup → (r.map Prod.fst).Nodup) ∧
        (∀ src ∈ l, ∀ k, sourceConfigKey o src = some k → k ∈ r.map Prod.fst) ∧
        (∀ e ∈ Δ, sourceConfigKey o e.2 = some e.1 ∧
          l.get? (l.findIdx (fun s => sourceConfigKey o s = some e.1)) = some e.2) ∧
        (Δ.map Prod.fst).Pairwise (fun k1 k2 =>
          l.findIdx (fun s => sourceConfigKey o s = some k1) <
            l.findIdx (fun s => sourceConfigKey o s = some k2)) := by
  intro l
  induction l with
  | nil =>
    intro acc r h
    rw [getUniqueAux] at h
    obtain rfl : acc = r := Option.some.inj h
    exact ⟨[], (List.append_nil acc).symm, fun e he => absurd he (List.not_mem_nil e),
      fun hnd => hnd, fun s hs => absurd hs (List.not_mem_nil s),
      fun e he => absurd he (List.not_mem_nil e), List.Pairwise.nil⟩
  | cons src rest ih =>
    intro acc r h
    rw [getUniqueAux] at h
    cases hv : src.vegas_params with
    | none =>
      rw [hv] at h
      obtain ⟨Δ, hr, hnotacc, hnd, hcompl, hfirst, hord⟩ := ih acc r h
      have hkey : sourceConfigKey o src = none := sourceConfigKey_none o src hv
      have hshift : ∀ k : String × List ℚ × ℚ × ℕ × Bool,
          (src :: rest).findIdx (fun s => sourceConfigKey o s = some k) =
            rest.findIdx (fun s => sourceConfigKey o s = some k) + 1 := by
        intro k
        rw [List.findIdx_cons]
        simp [hkey]
      refine ⟨Δ, hr, hnotacc, hnd, ?_, ?_, ?_⟩
      · intro s hs k hk
        rcases List.mem_cons.mp hs with rfl | hs
        · rw [hkey] at hk; cases hk
        · exact hcompl s hs k hk
      · intro e he
        obtain ⟨h1, h2⟩ := hfirst e he
        exact ⟨h1, by rw [hshift]; simpa using h2⟩
      · refine hord.imp ?_
        intro k1 k2 hk
        rw [hshift, hshift]
        omega
    | some p =>
      rw [hv] at h
      cases hkey : sourceConfigKey o src with
      | none =>
        rw [hkey] at h
        cases h
      | some k0 =>
        rw [hkey] at h
        simp only [Option.bind_eq_bind, Option.some_bind] at h
        have hheadIdx : (src :: rest).findIdx (fun s => sourceConfigKey o s = some k0) = 0 := by
          rw [List.findIdx_cons]
          simp [hkey]
        have hshift : ∀ k : String × List ℚ × ℚ × ℕ × Bool, k ≠ k0 →
            (src :: rest).findIdx (fun s => sourceConfigKey o s = some k) =
              rest.findIdx (fun s => sourceConfigKey o s = some k) + 1 := by
          intro k hk
          rw [List.findIdx_cons]
          have hno : ¬ (sourceConfigKey o src = some k) := by
            rw [hkey]
            intro hh
            exact hk (Option.some.inj hh).symm
          simp [hno]
        by_cases hmem : k0 ∈ acc.map Prod.fst
        · simp only [hmem, if_true] at h
          obtain ⟨Δ, hr, hnotacc, hnd, hcompl, hfirst, hord⟩ := ih acc r h
          have hne : ∀ e ∈ Δ, e.1 ≠ k0 := by
            intro e he hEq
            exact hnotacc e he (hEq ▸ hmem)
          refine ⟨Δ, hr, hnotacc, hnd, ?_, ?_, ?_⟩
          · intro s hs k hk
            rcases List.mem_cons.mp hs with rfl | hs
            · rw [hkey] at hk
              obtain rfl : k0 = k := Option.some.inj hk
              rw [hr, List.map_append]
              exact List.mem_append_left _ hmem
            · exact hcompl s hs k hk
          · intro e he
            obtain ⟨h1, h2⟩ := hfirst e he
            exact ⟨h1, by rw [hshift e.1 (hne e he)]; simpa using h2⟩
          · rw [List.pairwise_map] at hord ⊢
            refine List.Pairwise.imp_of_mem ?_ hord
            intro e1 e2 he1 he2 hk
            rw [hshift e1.1 (hne e1 he1), hshift e2.1 (hne e2 he2)]
            omega
        · simp only [hmem, if_false] at h
          obtain ⟨Δ', hr, hnotacc, hnd, hcompl, hfirst, hord⟩ := ih (acc ++ [(k0, src)]) r h
          have hne : ∀ e ∈ Δ', e.1 ≠ k0 := by
            intro e he hEq
            refine hnotacc e he ?_
            rw [List.map_append]
            exact List.mem_append_right _ (by simp [hEq])
          refine ⟨(k0, src) :: Δ', ?_, ?_, ?_, ?_, ?_, ?_⟩
          · rw [hr, List.append_assoc]
            rfl
          · intro e he
            rcases List.mem_cons.mp he with rfl | he
            · exact hmem
            · intro hEq
              refine hnotacc e he ?_
              rw [List.map_append]
              exact List.mem_append_left _ hEq
          · intro hndacc
            refine hnd ?_
            rw [List.map_append, List.nodup_append]
            refine ⟨hndacc, by simp, ?_⟩
            intro a ha
            simp only [List.map_cons, List.map_nil, List.mem_singleton]
            intro hEq
            rw [hEq] at ha
            exact hmem ha
          · intro s hs k hk
            rcases List.mem_cons.mp hs with rfl | hs
            · rw [hkey] at hk
              obtain rfl : k0 = k := Option.some.inj hk
              rw [hr, List.map_append, List.map_append]
              exact List.mem_append_left _ (List.mem_append_right _ (by simp))
            · exact hcompl s hs k hk
          · intro e he
            rcases List.mem_cons.mp he with rfl | he
            · refine ⟨hkey, ?_⟩
              rw [hheadIdx]
              simp
            · obtain ⟨h1, h2⟩ := hfirst e he
              exact ⟨h1, by rw [hshift e.1 (hne e he)]; simpa using h2⟩
          · rw [List.map_cons]
            refine List.Pairwise.cons ?_ ?_
            · intro k2 hk2
              rw [List.mem_map] at hk2
              obtain ⟨e2, he2, rfl⟩ := hk2
              rw [hheadIdx, hshift e2.1 (hne e2 he2)]
              omega
            · rw [List.pairwise_map] at hord ⊢
              refine List.Pairwise.imp_of_mem ?_ hord
              intro e1 e2 he1 he2 hk
              rw [hshift e1.1 (hne e1 he1), hshift e2.1 (hne e2 he2)]
              omega

end PsrSbGui
namespace PsrSbGui

/-- A source with a dedup key has `vegas_params` set. -/
lemma sourceConfigKey_isSome (o : ObservationModel) (src : Source)
    (k : String × List ℚ × ℚ × ℕ × Bool) (h : sourceConfigKey o src = some k) :
    ∃ p, src.vegas_params = some p := by
  cases hv : src.vegas_params with
  | none => rw [sourceConfigKey_none o src hv] at h; cases h
  | some p => exact ⟨p, rfl⟩

/-- A successfully generated configuration block for a source with
`vegas_params` opens with its `<config_name> = \"\"\"` header line. -/
lemma generateConfigBlock_head (config_name : String) (src : Source)
    (band_label : String) (obs_mode : ObsMode) (b1 b2 : Bool) (p : VegasParams)
    (lines : List String) (hv : src.vegas_params = some p)
    (h : generateConfigBlock config_name src band_label obs_mode b1 b2 = some lines) :
    ∃ restL, lines = (config_name ++ " = \"\"\"") :: restL := by
  simp only [generateConfigBlock, Option.bind_eq_bind, Option.bind_eq_some] at h
  obtain ⟨band, hband, h⟩ := h
  rw [hv] at h
  simp only [Option.bind_eq_some, Option.pure_def, Option.some.injEq] at h
  obtain ⟨df, hdf, h⟩ := h
  exact ⟨_, h.symm⟩

/-- A successful `mapM` over `Option` maps each element in place. -/
lemma mapM_some_spec {α β : Type _} (f : α → Option β) :
    ∀ (l : List α) (l' : List β), l.mapM f = some l' →
      l'.length = l.length ∧
      ∀ i : ℕ, ∀ h : i < l.length, ∀ h' : i < l'.length,
        f (l.get ⟨i, h⟩) = some (l'.get ⟨i, h'⟩) := by
  intro l
  induction l with
  | nil =>
    intro l' h
    rw [List.mapM_nil] at h
    obtain rfl : [] = l' := Option.some.inj h
    exact ⟨rfl, fun i h _ => absurd h (by simp)⟩
  | cons a t ih =>
    intro l' h
    rw [List.mapM_cons] at h
    simp only [Option.bind_eq_bind, Option.bind_eq_some, Option.pure_def,
      Option.some.injEq] at h
    obtain ⟨b, hb, bs, hbs, rfl⟩ := h
    obtain ⟨hlen, hidx⟩ := ih bs hbs
    refine ⟨by simp [hlen], ?_⟩
    intro i hi hi'
    match i with
    | 0 => simpa using hb
    | i + 1 =>
      simpa using hidx i (by simpa using hi) (by simpa using hi')

end PsrSbGui
namespace PsrSbGui

/-- C5: on success, `_get_unique_flux_cal_configs` yields exactly one
entry per unique (receiver, window center frequencies, bandwidth, channel
count, coherence) combination among the group's sources — keys are
pairwise distinct, every resolvable source's key is present, each entry's
representative is the first source bearing its key, entries appear in
first-seen order — and the compiled flux-cal block emits exactly one
configuration block per entry, named `config_fluxcal_<n>` with n starting
at 1 in order. -/
theorem flux_cal_unique_configs (o : ObservationModel) (sources : List Source)
    (cfgs : List ((String × List ℚ × ℚ × ℕ × Bool) × Source))
    (hu : get_unique_flux_cal_configs o sources = some cfgs) :
    (cfgs.map Prod.fst).Nodup ∧
    (∀ src ∈ sources, ∀ k, sourceConfigKey o src = some k → k ∈ cfgs.map Prod.fst) ∧
    (∀ e ∈ cfgs, sourceConfigKey o e.2 = some e.1 ∧
      sources.get? (sources.findIdx (fun s => sourceConfigKey o s = some e.1)) = some e.2) ∧
    ((cfgs.map Prod.fst).Pairwise (fun k1 k2 =>
      sources.findIdx (fun s => sourceConfigKey o s = some k1) <
        sources.findIdx (fun s => sourceConfigKey o s = some k2))) ∧
    (∀ band_label ls, generateFluxCalSbLines o band_label sources = some ls →
      ∃ blocks : List (List String),
        ((cfgs.enumFrom 1).mapM (fun ic =>
          generateConfigBlock ("config_fluxcal_" ++ toString ic.1) ic.2.2
            (getSourceBand o ic.2.2) (getSourceMode o ic.2.2) false true) = some blocks) ∧
        blocks.length = cfgs.length ∧
        (∀ i : ℕ, ∀ hi : i < blocks.length, ∃ restL,
          blocks.get ⟨i, hi⟩ = ("config_fluxcal_" ++ toString (i + 1) ++ " = \"\"\"") :: restL) ∧
        ∃ pre post, ls = pre ++ blocks.flatten ++ post) := by
  obtain ⟨Δ, hr, _, hnd, hcompl, hfirst, hord⟩ :=
    getUniqueAux_spec o sources [] cfgs hu
  rw [List.nil_append] at hr
  subst hr
  refine ⟨hnd (by simp), hcompl, hfirst, hord, ?_⟩
  intro band_label ls hls
  simp only [generateFluxCalSbLines, Option.bind_eq_bind, Option.bind_eq_some,
    Option.pure_def, Option.some.injEq] at hls
  obtain ⟨cfgs', hc', blocks, hb, hls⟩ := hls
  rw [hu] at hc'
  obtain rfl : cfgs = cfgs' := Option.some.inj hc'
  refine ⟨blocks, hb, ?_, ?_, ?_⟩
  · have := (mapM_some_spec _ _ _ hb).1
    rw [this, List.enumFrom_length]
  · intro i hi
    obtain ⟨hlen, hidx⟩ := mapM_some_spec _ _ _ hb
    have hi2 : i < (cfgs.enumFrom 1).length := by omega
    have h3 := hidx i hi2 hi
    rw [List.get_enumFrom] at h3
    have hmem : cfgs.get ((⟨i, hi2⟩ : Fin (cfgs.enumFrom 1).length).cast List.enumFrom_length) ∈ cfgs :=
      List.get_mem cfgs i (by simpa using hi2)
    obtain ⟨p, hp⟩ := sourceConfigKey_isSome o _ _ (hfirst _ hmem).1
    have h4 := generateConfigBlock_head _ _ _ _ _ _ p _ hp h3
    obtain ⟨restL, hres⟩ := h4
    refine ⟨restL, ?_⟩
    rw [hres]
    norm_num [Nat.add_comm]
  · rw [List.append_assoc] at hls
    exact ⟨_, _, hls.symm⟩

end PsrSbGui
namespace PsrSbGui

set_option synthInstance.maxSize 512 in
/-- Witness for C5: two sources sharing receiver "Rcvr1_2" and identical
resolved (freqs, bandwidth, numchan, coherent) dedup to exactly one
configuration, whose keys are Nodup, and the generated flux-cal block
contains exactly one configuration header line. -/
theorem flux_cal_unique_configs_witness :
    (get_unique_flux_cal_configs { flux_cal_source := "" } [{ name := "A", vegas_params := some { numchan := 512, outbits := 8, scale := 1585, polnmode := "FULL_STOKES", tint := 10, fold_bins := 2048, fold_dumptime := 10, center_freqs := [1500], band_label := "", obs_mode_value := "" } }, { name := "B", vegas_params := some { numchan := 512, outbits := 8, scale := 1585, polnmode := "FULL_STOKES", tint := 10, fold_bins := 2048, fold_dumptime := 10, center_freqs := [1500], band_label := "", obs_mode_value := "" } }] = some [((("Rcvr1_2", [1500], 800, 512, true) : String × List ℚ × ℚ × ℕ × Bool), { name := "A", vegas_params := some { numchan := 512, outbits := 8, scale := 1585, polnmode := "FULL_STOKES", tint := 10, fold_bins := 2048, fold_dumptime := 10, center_freqs := [1500], band_label := "", obs_mode_value := "" } })]) ∧
    (([((("Rcvr1_2", [1500], 800, 512, true) : String × List ℚ × ℚ × ℕ × Bool), ({ name := "A", vegas_params := some { numchan := 512, outbits := 8, scale := 1585, polnmode := "FULL_STOKES", tint := 10, fold_bins := 2048, fold_dumptime := 10, center_freqs := [1500], band_label := "", obs_mode_value := "" } } : Source))].map Prod.fst).Nodup) ∧
    ((generateFluxCalSbLines { flux_cal_source := "" } "L-band" [{ name := "A", vegas_params := some { numchan := 512, outbits := 8, scale := 1585, polnmode := "FULL_STOKES", tint := 10, fold_bins := 2048, fold_dumptime := 10, center_freqs := [1500], band_label := "", obs_mode_value := "" } }, { name := "B", vegas_params := some { numchan := 512, outbits := 8, scale := 1585, polnmode := "FULL_STOKES", tint := 10, fold_bins := 2048, fold_dumptime := 10, center_freqs := [1500], band_label := "", obs_mode_value := "" } }]).map (fun ls => (ls.filter (fun l => strStartsWith l "config_fluxcal_")).length) = some 1) :=
  ⟨by decide,
   (flux_cal_unique_configs { flux_cal_source := "" } [{ name := "A", vegas_params := some { numchan := 512, outbits := 8, scale := 1585, polnmode := "FULL_STOKES", tint := 10, fold_bins := 2048, fold_dumptime := 10, center_freqs := [1500], band_label := "", obs_mode_value := "" } }, { name := "B", vegas_params := some { numchan := 512, outbits := 8, scale := 1585, polnmode := "FULL_STOKES", tint := 10, fold_bins := 2048, fold_dumptime := 10, center_freqs := [1500], band_label := "", obs_mode_value := "" } }] [((("Rcvr1_2", [1500], 800, 512, true) : String × List ℚ × ℚ × ℕ × Bool), { name := "A", vegas_params := some { numchan := 512, outbits := 8, scale := 1585, polnmode := "FULL_STOKES", tint := 10, fold_bins := 2048, fold_dumptime := 10, center_freqs := [1500], band_label := "", obs_mode_value := "" } })] (by decide)).1,
   by decide⟩

end PsrSbGui
